import Mathlib

/-!
Verification of the RPG HATPRO binary telemetry decoder (src/load/load_rpg.py)
against its natural-language specification.

Embedding conventions:
* Python floats (IEEE-754 doubles) are embedded as exact rationals.  Every
  numeric example settled below involves only values on which double and
  rational arithmetic agree exactly (the inputs and all intermediates are
  representable, and the one rounding step, the 4-significant-digit format,
  is not at a representability boundary).
* Byte streams are lists of naturals below 256; 32-bit float fields that no
  codec touches are carried as their raw little-endian 32-bit word.
* Python exceptions raised during a decode (struct.error on a short or
  malformed read, UnboundLocalError at the return expression) are embedded
  as values of an error type, with the byte offset at which the failing read
  started where one exists.
-/

namespace RPG

/-! ## Shared bit-level helpers -/

/-- Character j of the reversed 32-character binary rendering of a word,
i.e. bit j (least-significant-first) of the original word.  The source
builds the string with bin(w)[2:].zfill(32) and reverses it. -/
def revBit (w j : ℕ) : ℕ := w / 2 ^ j % 2

/-- The 8-character MSB-first binary rendering of one byte, as produced by
the 08b format: position 0 is the leftmost character. -/
def bitsOfByte (b : ℕ) : List ℕ :=
  [b / 128 % 2, b / 64 % 2, b / 32 % 2, b / 16 % 2,
   b / 8 % 2, b / 4 % 2, b / 2 % 2, b % 2]

/-! ## F2: rainflag -/

/-- From the source, function rainflag: the input is the 8-character string
rendering of a byte; the result is
[int(data[7],2), int(data[5]+data[6],2), int(data[3]+data[4],2)].
Concatenating two binary digit characters and reading base 2 is 2*hi + lo. -/
def rainflag (data : List ℕ) : List ℕ :=
  [data.getD 7 0,
   2 * data.getD 5 0 + data.getD 6 0,
   2 * data.getD 3 0 + data.getD 4 0]

/-! ## F0: ang_to_zen_azm -/

/-- Round-half-even to an integer, the rounding used by Python string
formatting of a decimal mantissa. -/
def rhe (x : ℚ) : ℤ :=
  if x - ⌊x⌋ < 1 / 2 then ⌊x⌋
  else if 1 / 2 < x - ⌊x⌋ then ⌊x⌋ + 1
  else if ⌊x⌋ % 2 = 0 then ⌊x⌋ else ⌊x⌋ + 1

/-- Python float(format(x, .4g)): round x to 4 significant decimal digits.
Int.log 10 a is the floor of the base-10 logarithm of a positive rational. -/
def fmt4g (x : ℚ) : ℚ :=
  if x = 0 then 0
  else (if x < 0 then (-1 : ℚ) else 1)
    * (rhe (|x| / (10 : ℚ) ^ (Int.log 10 |x| - 3)) : ℚ)
    * (10 : ℚ) ^ (Int.log 10 |x| - 3)

/-- From the source, function ang_to_zen_azm, returning [zen, azm]. -/
def ang_to_zen_azm (ang : ℚ) : ℚ × ℚ :=
  if ang / 1000000 > 1 then
    let val := ang - 1000000
    let azm := fmt4g (val / 1000)
    let zen := ang - (1000000 + azm * 1000) + 100
    (zen, azm)
  else
    if ang < 100 then (ang, 0)
    else
      let val : ℤ := ⌊ang / 100⌋
      let zen := ang - 100 * (val : ℚ)
      let azm := (ang - zen) / 1000
      (zen, azm)

/-! ## F1: convert_lonlat -/

/-- From the source, function convert_lonlat. -/
def convert_lonlat (data : ℚ) : ℚ :=
  let sign : ℚ := if data < 0 then -1 else 1
  let a := |data|
  let degree : ℤ := ⌊a / 100⌋
  let minute : ℤ := ⌊a - (degree : ℚ) * 100⌋
  let second : ℚ := (a - ((degree : ℚ) * 100 + (minute : ℚ))) * 60
  sign * ((degree : ℚ) + (minute : ℚ) / 60 + second / 3600)

/-- Modelled from the spec: the LonLatCodec decode formula as written in
section 4.3 of the spec, for comparison with convert_lonlat. -/
def lonlatSpec (value : ℚ) : ℚ :=
  let sign : ℚ := if value < 0 then -1 else 1
  let magnitude := |value|
  let degree : ℤ := ⌊magnitude / 100⌋
  let minute : ℤ := ⌊magnitude - (degree : ℚ) * 100⌋
  let second : ℚ := (magnitude - ((degree : ℚ) * 100 + (minute : ℚ))) * 60
  sign * ((degree : ℚ) + (minute : ℚ) / 60 + second / 3600)

/-! ## HKD quality bitfield (hkd_qlt) -/

/-- From the source, the quality-flag decode in read_hkd: the 32-bit word is
rendered in binary, zero-filled to 32 characters and reversed; the sixteen
stored values are the single characters at the even positions 0,2,...,30
(slices [0:1], [2:3], ..., [30:31], each zero-padded to 8 characters before
int(.,2), which leaves the single bit value unchanged). -/
def hkdQlt (w : ℕ) : List ℕ :=
  [revBit w 0, revBit w 2, revBit w 4, revBit w 6,
   revBit w 8, revBit w 10, revBit w 12, revBit w 14,
   revBit w 16, revBit w 18, revBit w 20, revBit w 22,
   revBit w 24, revBit w 26, revBit w 28, revBit w 30]

/-- From the source, the status-flag decode in read_hkd: 27 values read from
the reversed binary string at positions 0-6, 8-14, 16-21, 22, 24, 26-30. -/
def hkdSts (w : ℕ) : List ℕ :=
  [revBit w 0, revBit w 1, revBit w 2, revBit w 3, revBit w 4,
   revBit w 5, revBit w 6,
   revBit w 8, revBit w 9, revBit w 10, revBit w 11, revBit w 12,
   revBit w 13, revBit w 14,
   revBit w 16, revBit w 17, revBit w 18, revBit w 19, revBit w 20,
   revBit w 21,
   revBit w 22, revBit w 24,
   revBit w 26, revBit w 27, revBit w 28, revBit w 29, revBit w 30]

end RPG

namespace RPG

/-! ## Claim C1: literal decode examples of ang_to_zen_azm -/

/-- C1: the angle decoder returns exactly the spec's literal examples:
decode 1267438.5 = (138.5, 267.4), decode 267438.5 = (38.5, 267.4),
decode 90 = (90, 0), decode 590 = (90, 0.5), decode 1590 = (90, 1.5). -/
theorem claim1_ang_examples :
    ang_to_zen_azm (2534877 / 2) = (277 / 2, 1337 / 5) ∧
    ang_to_zen_azm (534877 / 2) = (77 / 2, 1337 / 5) ∧
    ang_to_zen_azm 90 = (90, 0) ∧
    ang_to_zen_azm 590 = (90, 1 / 2) ∧
    ang_to_zen_azm 1590 = (90, 3 / 2) := by
  have hfmt : fmt4g (534877 / 2000) = 1337 / 5 := by
    have hlog : Int.log 10 (534877 / 2000 : ℚ) = 2 := by
      rw [Int.log_of_one_le_right _ (by norm_num)]
      rw [show ⌊(534877 / 2000 : ℚ)⌋₊ = 267 from by norm_num [Nat.floor_eq_iff]]
      exact_mod_cast Nat.log_eq_of_pow_le_of_lt_pow (by norm_num) (by norm_num)
    have hrhe : rhe (534877 / 200 : ℚ) = 2674 := by
      unfold rhe
      rw [show ⌊(534877 / 200 : ℚ)⌋ = 2674 from Int.floor_eq_iff.mpr (by norm_num)]
      rw [if_pos (by norm_num)]
    unfold fmt4g
    rw [if_neg (by norm_num), if_neg (by norm_num)]
    rw [show |(534877 / 2000 : ℚ)| = 534877 / 2000 from by norm_num, hlog]
    rw [show ((534877 : ℚ) / 2000) / (10 : ℚ) ^ ((2 : ℤ) - 3) = 534877 / 200 from by norm_num]
    rw [hrhe]
    norm_num
  refine ⟨?_, ?_, ?_, ?_, ?_⟩
  · unfold ang_to_zen_azm
    rw [if_pos (by norm_num : ((2534877 : ℚ) / 2) / 1000000 > 1)]
    show ((2534877 : ℚ) / 2 - (1000000 + fmt4g (((2534877 : ℚ) / 2 - 1000000) / 1000) * 1000) + 100,
          fmt4g (((2534877 : ℚ) / 2 - 1000000) / 1000)) = (277 / 2, 1337 / 5)
    rw [show ((2534877 : ℚ) / 2 - 1000000) / 1000 = 534877 / 2000 from by norm_num, hfmt]
    norm_num
  · unfold ang_to_zen_azm
    rw [if_neg (by norm_num), if_neg (by norm_num)]
    show ((534877 : ℚ) / 2 - 100 * ((⌊(534877 : ℚ) / 2 / 100⌋ : ℤ) : ℚ),
          ((534877 : ℚ) / 2 - ((534877 : ℚ) / 2 - 100 * ((⌊(534877 : ℚ) / 2 / 100⌋ : ℤ) : ℚ))) / 1000)
        = (77 / 2, 1337 / 5)
    rw [show ⌊(534877 : ℚ) / 2 / 100⌋ = 2674 from Int.floor_eq_iff.mpr (by norm_num)]
    norm_num
  · unfold ang_to_zen_azm
    rw [if_neg (by norm_num), if_pos (by norm_num)]
  · unfold ang_to_zen_azm
    rw [if_neg (by norm_num), if_neg (by norm_num)]
    show ((590 : ℚ) - 100 * ((⌊(590 : ℚ) / 100⌋ : ℤ) : ℚ),
          ((590 : ℚ) - ((590 : ℚ) - 100 * ((⌊(590 : ℚ) / 100⌋ : ℤ) : ℚ))) / 1000) = (90, 1 / 2)
    rw [show ⌊(590 : ℚ) / 100⌋ = 5 from Int.floor_eq_iff.mpr (by norm_num)]
    norm_num
  · unfold ang_to_zen_azm
    rw [if_neg (by norm_num), if_neg (by norm_num)]
    show ((1590 : ℚ) - 100 * ((⌊(1590 : ℚ) / 100⌋ : ℤ) : ℚ),
          ((1590 : ℚ) - ((1590 : ℚ) - 100 * ((⌊(1590 : ℚ) / 100⌋ : ℤ) : ℚ))) / 1000) = (90, 3 / 2)
    rw [show ⌊(1590 : ℚ) / 100⌋ = 15 from Int.floor_eq_iff.mpr (by norm_num)]
    norm_num

/-! ## Claim C6: the third decode branch of ang_to_zen_azm -/

/-- C6 counterexample: at v = 590 the third branch applies, the decoder
returns azimuth 0.5, and 0.5 differs from floor(590/100) = 5, so the claim
that the azimuth equals floor(v/100) is false on the code. -/
theorem claim6_counterexample :
    ang_to_zen_azm 590 = (90, 1 / 2) ∧ ((1 : ℚ) / 2) ≠ ((⌊(590 : ℚ) / 100⌋ : ℤ) : ℚ) := by
  constructor
  · unfold ang_to_zen_azm
    rw [if_neg (by norm_num), if_neg (by norm_num)]
    show ((590 : ℚ) - 100 * ((⌊(590 : ℚ) / 100⌋ : ℤ) : ℚ),
          ((590 : ℚ) - ((590 : ℚ) - 100 * ((⌊(590 : ℚ) / 100⌋ : ℤ) : ℚ))) / 1000) = (90, 1 / 2)
    rw [show ⌊(590 : ℚ) / 100⌋ = 5 from Int.floor_eq_iff.mpr (by norm_num)]
    norm_num
  · rw [show ⌊(590 : ℚ) / 100⌋ = 5 from Int.floor_eq_iff.mpr (by norm_num)]
    norm_num

/-- C6 amended: for every v with v/1000000 not greater than 1 and v not less
than 100, ang_to_zen_azm v = (v - 100*k, k/10) where k = floor(v/100): the
azimuth is k/10, one tenth of the value the claim stated. -/
theorem claim6_third_branch (v : ℚ) (h1 : ¬ v / 1000000 > 1) (h2 : ¬ v < 100) :
    ang_to_zen_azm v =
      (v - 100 * ((⌊v / 100⌋ : ℤ) : ℚ), ((⌊v / 100⌋ : ℤ) : ℚ) / 10) := by
  unfold ang_to_zen_azm
  rw [if_neg h1, if_neg h2]
  show (v - 100 * ((⌊v / 100⌋ : ℤ) : ℚ),
        (v - (v - 100 * ((⌊v / 100⌋ : ℤ) : ℚ))) / 1000)
      = (v - 100 * ((⌊v / 100⌋ : ℤ) : ℚ), ((⌊v / 100⌋ : ℤ) : ℚ) / 10)
  refine Prod.ext rfl ?_
  show (v - (v - 100 * ((⌊v / 100⌋ : ℤ) : ℚ))) / 1000 = ((⌊v / 100⌋ : ℤ) : ℚ) / 10
  ring

/-- C6 witness: the amended branch theorem instantiated at v = 590. -/
theorem claim6_witness :
    ¬ (590 : ℚ) / 1000000 > 1 ∧ ¬ (590 : ℚ) < 100 ∧
    ang_to_zen_azm 590 =
      (590 - 100 * ((⌊(590 : ℚ) / 100⌋ : ℤ) : ℚ),
       ((⌊(590 : ℚ) / 100⌋ : ℤ) : ℚ) / 10) :=
  ⟨by norm_num, by norm_num, claim6_third_branch 590 (by norm_num) (by norm_num)⟩

/-! ## Claim C7: rainflag bit extraction -/

/-- C7: applied to the 8-character MSB-first rendering of a byte b, rainflag
returns the bit at position 7 (the least significant bit of b), the 2-bit
value at positions 5-6, and the 2-bit value at positions 3-4; decoding
00000000 gives (0,0,0) and 11111111 gives (1,3,3). -/
theorem claim7_rainflag :
    (∀ b : ℕ, b < 256 → rainflag (bitsOfByte b) = [b % 2, b / 2 % 4, b / 8 % 4]) ∧
    rainflag (bitsOfByte 0) = [0, 0, 0] ∧
    rainflag (bitsOfByte 255) = [1, 3, 3] := by
  refine ⟨fun b _ => ?_, by decide, by decide⟩
  have hred : rainflag (bitsOfByte b) =
      [b % 2, 2 * (b / 4 % 2) + b / 2 % 2, 2 * (b / 16 % 2) + b / 8 % 2] := rfl
  rw [hred]
  simp only [List.cons.injEq, and_true, true_and]
  omega

/-- C7 witness: the bit-extraction identity instantiated at the byte 214. -/
theorem claim7_witness :
    (214 : ℕ) < 256 ∧
    rainflag (bitsOfByte 214) = [214 % 2, 214 / 2 % 4, 214 / 8 % 4] :=
  ⟨by norm_num, claim7_rainflag.1 214 (by norm_num)⟩

/-! ## Claim C8: convert_lonlat formula and examples -/

/-- C8: convert_lonlat computes exactly the spec's sign/degree/minute/second
formula, and the three literal examples hold within 1e-6. -/
theorem claim8_lonlat :
    (∀ v : ℚ, convert_lonlat v = lonlatSpec v) ∧
    |convert_lonlat (-24491 / 2) - (-122758333 / 1000000)| < 1 / 1000000 ∧
    |convert_lonlat (-13285 / 4) - (-33354167 / 1000000)| < 1 / 1000000 ∧
    |convert_lonlat (-6661 / 2) - (-33508333 / 1000000)| < 1 / 1000000 := by
  have h1 : convert_lonlat (-24491 / 2) = -14731 / 120 := by
    simp only [convert_lonlat]
    rw [show |(-24491 / 2 : ℚ)| = 24491 / 2 from by norm_num]
    rw [show ⌊(24491 / 2 : ℚ) / 100⌋ = 122 from Int.floor_eq_iff.mpr (by norm_num)]
    rw [show ⌊(24491 / 2 : ℚ) - ((122 : ℤ) : ℚ) * 100⌋ = 45 from Int.floor_eq_iff.mpr (by norm_num)]
    rw [if_pos (by norm_num : (-24491 / 2 : ℚ) < 0)]
    norm_num
  have h2 : convert_lonlat (-13285 / 4) = -1601 / 48 := by
    simp only [convert_lonlat]
    rw [show |(-13285 / 4 : ℚ)| = 13285 / 4 from by norm_num]
    rw [show ⌊(13285 / 4 : ℚ) / 100⌋ = 33 from Int.floor_eq_iff.mpr (by norm_num)]
    rw [show ⌊(13285 / 4 : ℚ) - ((33 : ℤ) : ℚ) * 100⌋ = 21 from Int.floor_eq_iff.mpr (by norm_num)]
    rw [if_pos (by norm_num : (-13285 / 4 : ℚ) < 0)]
    norm_num
  have h3 : convert_lonlat (-6661 / 2) = -4021 / 120 := by
    simp only [convert_lonlat]
    rw [show |(-6661 / 2 : ℚ)| = 6661 / 2 from by norm_num]
    rw [show ⌊(6661 / 2 : ℚ) / 100⌋ = 33 from Int.floor_eq_iff.mpr (by norm_num)]
    rw [show ⌊(6661 / 2 : ℚ) - ((33 : ℤ) : ℚ) * 100⌋ = 30 from Int.floor_eq_iff.mpr (by norm_num)]
    rw [if_pos (by norm_num : (-6661 / 2 : ℚ) < 0)]
    norm_num
  refine ⟨fun v => rfl, ?_, ?_, ?_⟩
  · rw [h1]
    rw [show (-14731 / 120 : ℚ) - (-122758333 / 1000000) = -1 / 3000000 from by norm_num]
    rw [abs_of_neg (by norm_num)]
    norm_num
  · rw [h2]
    rw [show (-1601 / 48 : ℚ) - (-33354167 / 1000000) = 1 / 3000000 from by norm_num]
    rw [abs_of_pos (by norm_num)]
    norm_num
  · rw [h3]
    rw [show (-4021 / 120 : ℚ) - (-33508333 / 1000000) = -1 / 3000000 from by norm_num]
    rw [abs_of_neg (by norm_num)]
    norm_num

/-! ## Claim C2: the HKD quality bitfield decode -/

/-- C2: the quality-flag decode reads sixteen single-bit slices (the even
positions of the reversed bit string) instead of sixteen 2-bit sub-fields,
so every decoded value is at most 1 and the all-ones word decodes to sixteen
1s, never to the value 3 the 2-bit table prescribes.  This contradicts the
bit-map table reproduced in the source's own comment block (8 groups of 4
bits, each a 2-bit quality and a 2-bit reason with values 0..3). -/
theorem claim2_qlt_single_bits :
    hkdQlt 4294967295 = [1, 1, 1, 1, 1, 1, 1, 1, 1, 1, 1, 1, 1, 1, 1, 1] ∧
    (∀ w : ℕ, ∀ x ∈ hkdQlt w, x ≤ 1) := by
  refine ⟨by decide, ?_⟩
  intro w x hx
  fin_cases hx <;> exact Nat.le_of_lt_succ (Nat.mod_lt _ (by norm_num))

/-- C2 witness: membership instance of the bound at word 5 (bits 0 and 2 set),
where the first decoded sub-field is 1. -/
theorem claim2_witness : 1 ∈ hkdQlt 5 ∧ (1 : ℕ) ≤ 1 :=
  ⟨by decide, claim2_qlt_single_bits.2 5 1 (by decide)⟩

/-! ## Byte-stream machinery

The readers below are state-passing translations of the Python read
functions: a state is the list of not-yet-consumed bytes plus the count of
bytes already consumed, and every struct.unpack(f.read(k)) becomes a
primitive that either consumes exactly k bytes or fails the way the Python
call does (struct.error on a short buffer, struct.error on a negative
repeat count in the format string, TypeError from ord on an empty read).
Fields read as 32-bit floats with no further processing are carried as
their raw little-endian 32-bit word. -/

/-- Typed embedding of the exceptions a decode can raise: a short read
(struct.error or ord failure) with the offset at which the failing read
started, a malformed struct format string built from a negative count, and
an UnboundLocalError at the return expression. -/
inductive Err : Type
  | TruncatedInput : ℕ → Err
  | BadFormat : ℕ → Err
  | UnboundLocal : Err
deriving DecidableEq

/-- Decoder state: the remaining bytes and the current byte offset. -/
structure St : Type where
  data : List ℕ
  pos : ℕ
deriving DecidableEq

/-- The decode monad: state passing with typed failure. -/
def M (α : Type) : Type := St → Except Err (α × St)

instance : Monad M where
  pure a := fun s => .ok (a, s)
  bind x f := fun s =>
    match x s with
    | .ok (a, s₁) => f a s₁
    | .error e => .error e

/-- Splits off exactly k bytes, or nothing when fewer remain. -/
def takeExact : ℕ → List ℕ → Option (List ℕ × List ℕ)
  | 0, xs => some ([], xs)
  | _ + 1, [] => none
  | k + 1, x :: xs =>
    match takeExact k xs with
    | some (as, rest) => some (x :: as, rest)
    | none => none

/-- f.read(k) followed by a width-k struct.unpack: yields the k bytes, or
fails like struct.error when fewer than k remain. -/
def readBytes (k : ℕ) : M (List ℕ) := fun s =>
  match takeExact k s.data with
  | some (bs, rest) => .ok (bs, ⟨rest, s.pos + k⟩)
  | none => .error (.TruncatedInput s.pos)

/-- A bare f.read(k) whose value is discarded: Python returns a short
result silently, so this never fails. -/
def readSkip (k : ℕ) : M Unit := fun s =>
  .ok ((), ⟨s.data.drop k, s.pos + min k s.data.length⟩)

/-- ord(f.read(1)): one byte, failing on an empty read like ord does. -/
def readByte : M ℕ := fun s =>
  match s.data with
  | b :: rest => .ok (b, ⟨rest, s.pos + 1⟩)
  | [] => .error (.TruncatedInput s.pos)

/-- Little-endian 32-bit word value of a 4-byte list. -/
def u32le (bs : List ℕ) : ℕ :=
  match bs with
  | [a, b, c, d] => a + 256 * b + 65536 * c + 16777216 * d
  | _ => 0

/-- Reinterpret an unsigned 32-bit value as the signed value that
struct.unpack with a signed format code returns. -/
def i32ofN (n : ℕ) : ℤ :=
  if n < 2147483648 then (n : ℤ) else (n : ℤ) - 4294967296

/-- struct.unpack of one unsigned little-endian 32-bit integer. -/
def readU32 : M ℕ := do
  let bs ← readBytes 4
  pure (u32le bs)

/-- struct.unpack of one signed little-endian 32-bit integer. -/
def readI32 : M ℤ := do
  let n ← readU32
  pure (i32ofN n)

/-- struct.unpack of one little-endian 32-bit float, carried as its raw
bit pattern. -/
def readF32w : M ℕ := readU32

/-- struct.unpack of one signed byte (format b). -/
def readSByte : M ℤ := do
  let b ← readByte
  pure (if b < 128 then (b : ℤ) else (b : ℤ) - 256)

/-- Groups a byte list into consecutive little-endian 32-bit words. -/
def words4 : List ℕ → List ℕ
  | a :: b :: c :: d :: rest => u32le [a, b, c, d] :: words4 rest
  | _ => []

/-- Batch struct.unpack of a count-prefixed format such as <Nf or <Ni built
with str(count): a negative count produces a malformed format string and
struct.error regardless of the data, otherwise 4*count bytes are required
and consumed. -/
def readPack4 (count : ℤ) : M (List ℕ) := fun s =>
  if count < 0 then .error (.BadFormat s.pos)
  else
    match takeExact (4 * count.toNat) s.data with
    | some (bs, rest) => .ok (words4 bs, ⟨rest, s.pos + bs.length⟩)
    | none => .error (.TruncatedInput s.pos)

/-- Batch struct.unpack of signed 32-bit integers. -/
def readPack4i (count : ℤ) : M (List ℤ) := do
  let ws ← readPack4 count
  pure (ws.map i32ofN)

/-- A Python for-loop of n identical element reads, appending each result. -/
def readN (rec : M α) : ℕ → M (List α)
  | 0 => pure []
  | n + 1 => do
    let a ← rec
    let as ← readN rec n
    pure (a :: as)

/-- The value of an IEEE-754 binary32 bit pattern, as an exact rational.
Exponent 255 (infinity/NaN in Python) is carried by the same normal-form
formula; no claim settled below evaluates a float with exponent 255. -/
def f32q (w : ℕ) : ℚ :=
  if w / 8388608 % 256 = 0 then
    (if w / 2147483648 % 2 = 1 then -1 else 1) * ((w % 8388608 : ℕ) : ℚ) / 2 ^ 149
  else
    (if w / 2147483648 % 2 = 1 then -1 else 1) * ((8388608 + w % 8388608 : ℕ) : ℚ)
      * (2 : ℚ) ^ ((w / 8388608 % 256 : ℕ) : ℤ) / 2 ^ 150

/-- self.rainflag applied to the 08b rendering of one byte, as every
per-sample loop does. -/
def rainflagByte (b : ℕ) : List ℕ := rainflag (bitsOfByte b)

/-! ### Run lemmas for the decode monad -/

theorem pure_run {α : Type} (a : α) (s : St) : (pure a : M α) s = .ok (a, s) := rfl

theorem bind_run {α β : Type} (x : M α) (f : α → M β) (s : St) :
    (x >>= f) s =
      match x s with
      | .ok (a, s₁) => f a s₁
      | .error e => .error e := rfl

theorem bind_eq_ok {α β : Type} {x : M α} {s : St} {a : α} {s₁ : St}
    (hx : x s = .ok (a, s₁)) (f : α → M β) : (x >>= f) s = f a s₁ := by
  rw [bind_run, hx]

theorem bind_eq_error {α β : Type} {x : M α} {s : St} {e : Err}
    (hx : x s = .error e) (f : α → M β) : (x >>= f) s = .error e := by
  rw [bind_run, hx]

theorem bind_ok_elim {α β : Type} {x : M α} {f : α → M β} {s : St} {b : β} {s₂ : St}
    (h : (x >>= f) s = .ok (b, s₂)) :
    ∃ a s₁, x s = .ok (a, s₁) ∧ f a s₁ = .ok (b, s₂) := by
  rw [bind_run] at h
  cases hx : x s with
  | ok v =>
    obtain ⟨a, s₁⟩ := v
    rw [hx] at h
    exact ⟨a, s₁, rfl, h⟩
  | error e => rw [hx] at h; cases h

theorem readN_succ {α : Type} (rec : M α) (n : ℕ) :
    readN rec (n + 1) =
      rec >>= fun a => readN rec n >>= fun as => pure (a :: as) := rfl

theorem readN_split {α : Type} (rec : M α) (a b : ℕ) (s : St) :
    readN rec (a + b) s =
      (readN rec a >>= fun xs => readN rec b >>= fun ys => pure (xs ++ ys)) s := by
  induction a generalizing s with
  | zero =>
    rw [Nat.zero_add, show readN rec 0 = (pure [] : M (List α)) from rfl,
      bind_eq_ok (pure_run ([] : List α) s), bind_run]
    cases hx : readN rec b s with
    | error e => rfl
    | ok v =>
      obtain ⟨ys, s₂⟩ := v
      simp [pure_run]
  | succ a ih =>
    rw [Nat.succ_add, readN_succ, readN_succ]
    simp only [bind_run]
    cases hx : rec s with
    | error e => rfl
    | ok v =>
      obtain ⟨x, s₁⟩ := v
      simp only [bind_run]
      rw [ih]
      simp only [bind_run]
      cases hy : readN rec a s₁ with
      | error e => rfl
      | ok w =>
        obtain ⟨xs, s₂⟩ := w
        simp only [pure_run, bind_run]
        cases hz : readN rec b s₂ with
        | error e => rfl
        | ok u =>
          obtain ⟨ys, s₃⟩ := u
          simp only [pure_run]
          simp

theorem readN_length {α : Type} {rec : M α} {n : ℕ} {s s₁ : St} {xs : List α}
    (h : readN rec n s = .ok (xs, s₁)) : xs.length = n := by
  induction n generalizing s xs with
  | zero =>
    rw [show readN rec 0 s = .ok ([], s) from rfl] at h
    cases h
    rfl
  | succ n ih =>
    rw [readN_succ] at h
    obtain ⟨a, t₁, _, h₂⟩ := bind_ok_elim h
    obtain ⟨as, t₂, h₃, h₄⟩ := bind_ok_elim h₂
    rw [pure_run] at h₄
    cases h₄
    simp [ih h₃]

theorem readN_mem {α : Type} {rec : M α} {n : ℕ} {s s₁ : St} {xs : List α}
    (h : readN rec n s = .ok (xs, s₁)) :
    ∀ x ∈ xs, ∃ t₁ t₂, rec t₁ = .ok (x, t₂) := by
  induction n generalizing s xs with
  | zero =>
    rw [show readN rec 0 s = .ok ([], s) from rfl] at h
    cases h
    intro x hx
    cases hx
  | succ n ih =>
    rw [readN_succ] at h
    obtain ⟨a, t₁, h₁, h₂⟩ := bind_ok_elim h
    obtain ⟨as, t₂, h₃, h₄⟩ := bind_ok_elim h₂
    rw [pure_run] at h₄
    cases h₄
    intro x hx
    rcases List.mem_cons.mp hx with rfl | hx
    · exact ⟨s, t₁, h₁⟩
    · exact ih h₃ x hx

/-! ### Shared decode skeleton

Every per-sample format is: a header phase, a loop of exactly n sample
reads (n declared in the header), and a return phase assembling the
result dict, which is where Python raises UnboundLocalError when a
payload variable was never assigned. -/

/-- Header phase, n-sample loop, return phase. -/
def genDecode {H α D : Type} (hp : M H) (nOf : H → ℕ) (rec : H → M α)
    (ret : H → List α → M D) : M D := do
  let h ← hp
  let smps ← readN (rec h) (nOf h)
  ret h smps

/-- The truncation scenario of the spec, computed on a concrete buffer:
the header parses and declares n = 100, the first 50 sample records parse,
and they consume every remaining byte.  Returns the offset of the end of
the 50th record when the scenario holds. -/
def genScenario {H α : Type} (hp : M H) (nOf : H → ℕ) (rec : H → M α)
    (B : List ℕ) : Option ℕ :=
  match hp ⟨B, 0⟩ with
  | .ok (h, s₁) =>
    if nOf h = 100 then
      match readN (rec h) 50 s₁ with
      | .ok (_, s₂) => if s₂.data = [] then some s₂.pos else none
      | .error _ => none
    else none
  | .error _ => none

/-- A buffer whose header parses and declares n = 0. -/
def genScenarioN0 {H : Type} (hp : M H) (nOf : H → ℕ) (B : List ℕ) : Bool :=
  match hp ⟨B, 0⟩ with
  | .ok (h, _) => nOf h = 0
  | .error _ => false

/-- In the truncation scenario the decode fails with TruncatedInput at the
end-of-data offset: the 51st sample read starts past the last byte. -/
theorem gen_trunc {H α D : Type} (hp : M H) (nOf : H → ℕ) (rec : H → M α)
    (ret : H → List α → M D)
    (hfail : ∀ h p, rec h ⟨[], p⟩ = .error (.TruncatedInput p))
    {B : List ℕ} {p : ℕ} (hs : genScenario hp nOf rec B = some p) :
    genDecode hp nOf rec ret ⟨B, 0⟩ = .error (.TruncatedInput p) := by
  unfold genScenario at hs
  cases hh : hp ⟨B, 0⟩ with
  | error e => rw [hh] at hs; cases hs
  | ok v =>
    obtain ⟨h, s₁⟩ := v
    rw [hh] at hs
    replace hs : (if nOf h = 100 then
        (match readN (rec h) 50 s₁ with
          | .ok (_, s₂) => if s₂.data = [] then some s₂.pos else none
          | .error _ => none)
      else none) = some p := hs
    by_cases hn : nOf h = 100
    case neg => rw [if_neg hn] at hs; cases hs
    case pos =>
      rw [if_pos hn] at hs
      cases hr : readN (rec h) 50 s₁ with
      | error e => rw [hr] at hs; cases hs
      | ok w =>
        obtain ⟨xs, s₂⟩ := w
        rw [hr] at hs
        replace hs : (if s₂.data = [] then some s₂.pos else none) = some p := hs
        by_cases hd : s₂.data = []
        case neg => rw [if_neg hd] at hs; cases hs
        case pos =>
          rw [if_pos hd] at hs
          have hp2 : s₂.pos = p := Option.some.inj hs
          have hrec : rec h s₂ = .error (.TruncatedInput p) := by
            obtain ⟨d, q⟩ := s₂
            cases hd
            cases hp2
            exact hfail h q
          have h50 : readN (rec h) 50 s₂ = .error (.TruncatedInput p) := by
            rw [show (50 : ℕ) = 49 + 1 from rfl, readN_succ]
            exact bind_eq_error hrec _
          have inner :
              (readN (rec h) 50 >>= fun xs =>
                readN (rec h) 50 >>= fun ys => (pure (xs ++ ys) : M (List α))) s₁
              = .error (.TruncatedInput p) := by
            rw [bind_eq_ok hr]
            exact bind_eq_error h50 _
          show (hp >>= fun h => readN (rec h) (nOf h) >>= ret h) ⟨B, 0⟩
              = .error (.TruncatedInput p)
          rw [bind_eq_ok hh, hn, show (100 : ℕ) = 50 + 50 from rfl, bind_run, readN_split]
          rw [inner]

/-- With a header-declared n = 0 the sample loop reads nothing, so a return
phase that fails on an empty sample list fails the whole decode. -/
theorem gen_n0 {H α D : Type} (hp : M H) (nOf : H → ℕ) (rec : H → M α)
    (ret : H → List α → M D)
    (hret : ∀ h s, ret h [] s = .error .UnboundLocal)
    {B : List ℕ} (hs : genScenarioN0 hp nOf B = true) :
    genDecode hp nOf rec ret ⟨B, 0⟩ = .error .UnboundLocal := by
  unfold genScenarioN0 at hs
  cases hh : hp ⟨B, 0⟩ with
  | error e => rw [hh] at hs; cases hs
  | ok v =>
    obtain ⟨h, s₁⟩ := v
    rw [hh] at hs
    have hn : nOf h = 0 := by simpa using hs
    show (hp >>= fun h => readN (rec h) (nOf h) >>= ret h) ⟨B, 0⟩ = .error .UnboundLocal
    rw [bind_eq_ok hh, hn]
    rw [show readN (rec h) 0 = (pure ([] : List α) : M (List α)) from rfl]
    rw [bind_eq_ok (pure_run ([] : List α) s₁)]
    exact hret h s₁

/-- UnboundLocalError at the return expression: raised when the dict being
returned names a variable that was only ever assigned inside the sample
loop and the loop body never ran. -/
def unboundErr {α : Type} : M α := fun _ => .error .UnboundLocal

/-! ## A3: ATN (read_atn)

The frequency axis and the per-sample payload are read element by element
(an explicit Python for-loop per array), the axis length atn_freqn is read
signed, and atn_dat is pre-initialised to the empty list before the loop.
The source applies ang_to_zen_azm to the trailing float of every sample;
here the raw word is kept in the sample record and the codec is applied in
the return phase, which produces the same list. -/

structure AtnHeader where
  atn_code : ℤ
  atn_n : ℤ
  atn_timeref : ℤ
  atn_retrieval : ℤ
  atn_freqn : ℤ
  atn_freq : List ℕ
  atn_min : List ℕ
  atn_max : List ℕ

def atnHeader : M AtnHeader := do
  let code ← readI32
  let n ← readI32
  let timeref ← readI32
  let retrieval ← readI32
  let freqn ← readI32
  let freq ← readN readF32w freqn.toNat
  let mn ← readN readF32w freqn.toNat
  let mx ← readN readF32w freqn.toNat
  pure ⟨code, n, timeref, retrieval, freqn, freq, mn, mx⟩

structure AtnSample where
  t : ℤ
  rf : List ℕ
  dat : List ℕ
  ang : ℕ

def atnSample (freqn : ℤ) : M AtnSample := do
  let t ← readI32
  let rf ← readByte
  let dat ← readN readF32w freqn.toNat
  let ang ← readF32w
  pure ⟨t, rainflagByte rf, dat, ang⟩

structure AtnData where
  atn_code : ℤ
  atn_n : ℤ
  atn_timeref : ℤ
  atn_retrieval : ℤ
  atn_freqn : ℤ
  atn_freq : List ℕ
  atn_min : List ℕ
  atn_max : List ℕ
  atn_t : List ℤ
  atn_rf : List (List ℕ)
  atn_dat : List (List ℕ)
  atn_ang : List (ℚ × ℚ)

def atnRet (h : AtnHeader) (smps : List AtnSample) : M AtnData :=
  pure ⟨h.atn_code, h.atn_n, h.atn_timeref, h.atn_retrieval, h.atn_freqn,
    h.atn_freq, h.atn_min, h.atn_max,
    smps.map (·.t), smps.map (·.rf), smps.map (·.dat),
    smps.map (fun x => ang_to_zen_azm (f32q x.ang))⟩

def read_atn : M AtnData :=
  genDecode atnHeader (fun h => h.atn_n.toNat) (fun h => atnSample h.atn_freqn) atnRet

/-! ## A7: TPC (read_tpc)

The altitude count is read unsigned, the axis and the per-sample payload
are batch unpacks whose format string is built from the count, and tpc_dat
is first assigned inside the sample loop. -/

structure TpcHeader where
  tpc_code : ℕ
  tpc_n : ℕ
  tpc_min : ℕ
  tpc_max : ℕ
  tpc_timeref : ℕ
  tpc_retrieval : ℕ
  tpc_altn : ℕ
  tpc_alt : List ℤ

def tpcHeader : M TpcHeader := do
  let code ← readU32
  let n ← readU32
  let mn ← readF32w
  let mx ← readF32w
  let timeref ← readU32
  let retrieval ← readU32
  let altn ← readU32
  let alt ← readPack4i (altn : ℤ)
  pure ⟨code, n, mn, mx, timeref, retrieval, altn, alt⟩

structure TpcSample where
  t : ℤ
  rf : List ℕ
  dat : List ℕ

def tpcSample (altn : ℕ) : M TpcSample := do
  let t ← readI32
  let rf ← readByte
  let dat ← readPack4 (altn : ℤ)
  pure ⟨t, rainflagByte rf, dat⟩

structure TpcData where
  tpc_code : ℕ
  tpc_n : ℕ
  tpc_min : ℕ
  tpc_max : ℕ
  tpc_timeref : ℕ
  tpc_retrieval : ℕ
  tpc_altn : ℕ
  tpc_alt : List ℤ
  t_obs : List ℤ
  tpc_rf : List (List ℕ)
  tpc_dat : List (List ℕ)

def tpcRet (h : TpcHeader) (smps : List TpcSample) : M TpcData :=
  if smps.isEmpty then unboundErr
  else pure ⟨h.tpc_code, h.tpc_n, h.tpc_min, h.tpc_max, h.tpc_timeref,
    h.tpc_retrieval, h.tpc_altn, h.tpc_alt,
    smps.map (·.t), smps.map (·.rf), smps.map (·.dat)⟩

def read_tpc : M TpcData :=
  genDecode tpcHeader (fun h => h.tpc_n) (fun h => tpcSample h.tpc_altn) tpcRet

/-! ## Claim C4: no InvalidCount validation exists -/

/-- An ATN buffer declaring n = 0 samples and frequency count -1. -/
def atnBufNegFreqn : List ℕ :=
  [0, 0, 0, 0, 0, 0, 0, 0, 0, 0, 0, 0, 0, 0, 0, 0, 255, 255, 255, 255]

/-- An ATN buffer declaring n = 0 samples and frequency count 10000000. -/
def atnBufBigFreqn : List ℕ :=
  [0, 0, 0, 0, 0, 0, 0, 0, 0, 0, 0, 0, 0, 0, 0, 0, 128, 150, 152, 0]

/-- A TPC buffer whose altitude-count field holds the bytes FF FF FF FF
(the two's-complement encoding of -1, decoded unsigned as 4294967295). -/
def tpcBufNegAltn : List ℕ :=
  [0, 0, 0, 0, 0, 0, 0, 0, 0, 0, 0, 0, 0, 0, 0, 0, 0, 0, 0, 0, 0, 0, 0, 0,
   255, 255, 255, 255]

/-- A TPC buffer declaring altitude count 10000000. -/
def tpcBufBigAltn : List ℕ :=
  [0, 0, 0, 0, 0, 0, 0, 0, 0, 0, 0, 0, 0, 0, 0, 0, 0, 0, 0, 0, 0, 0, 0, 0,
   128, 150, 152, 0]

/-- C4 counterexample: an ATN buffer declaring frequency count -1 does not
fail with any error before a read: the decode runs to completion (the three
axis loops iterate range(-1), i.e. zero times) and returns a dataset whose
frequency count field is -1 and whose axis lists are empty. -/
theorem claim4_counterexample :
    read_atn ⟨atnBufNegFreqn, 0⟩ =
      .ok (⟨0, 0, 0, 0, -1, [], [], [], [], [], [], []⟩, ⟨[], 20⟩) := by rfl

/-- C4 amended: no count validation exists.  In ATN (signed count, element
loops) a count of -1 yields empty axis lists and the decode proceeds, while
a count of 10000000 causes element reads to be attempted against it,
failing with TruncatedInput when the data runs out.  In TPC the count field
is read unsigned, so the bytes of -1 decode as 4294967295; both that count
and 10000000 cause a batch read to be attempted and fail with
TruncatedInput at the altitude-array offset, not with InvalidCount before
any read. -/
theorem claim4_no_invalid_count :
    read_atn ⟨atnBufNegFreqn, 0⟩ =
      .ok (⟨0, 0, 0, 0, -1, [], [], [], [], [], [], []⟩, ⟨[], 20⟩) ∧
    read_atn ⟨atnBufBigFreqn, 0⟩ = .error (.TruncatedInput 20) ∧
    read_tpc ⟨tpcBufNegAltn, 0⟩ = .error (.TruncatedInput 28) ∧
    read_tpc ⟨tpcBufBigAltn, 0⟩ = .error (.TruncatedInput 28) :=
  ⟨rfl, rfl, rfl, rfl⟩

/-! ### Positional inversion lemmas for the primitives -/

theorem takeExact_eq_some {k : ℕ} {xs bs rest : List ℕ}
    (h : takeExact k xs = some (bs, rest)) :
    bs = xs.take k ∧ rest = xs.drop k := by
  induction k generalizing xs bs rest with
  | zero =>
    rw [show takeExact 0 xs = some ([], xs) from rfl] at h
    cases h
    exact ⟨rfl, rfl⟩
  | succ k ih =>
    cases xs with
    | nil => cases h
    | cons x xs =>
      rw [show takeExact (k + 1) (x :: xs) =
        (match takeExact k xs with
          | some (as, rest) => some (x :: as, rest)
          | none => none) from rfl] at h
      cases ht : takeExact k xs with
      | none => rw [ht] at h; cases h
      | some v =>
        obtain ⟨as, r⟩ := v
        rw [ht] at h
        obtain ⟨h1, h2⟩ := ih ht
        cases h
        simp [h1, h2]

theorem readBytes_ok {k : ℕ} {s s₁ : St} {bs : List ℕ}
    (h : readBytes k s = .ok (bs, s₁)) :
    bs = s.data.take k ∧ s₁ = ⟨s.data.drop k, s.pos + k⟩ := by
  unfold readBytes at h
  cases ht : takeExact k s.data with
  | none => rw [ht] at h; cases h
  | some v =>
    obtain ⟨cs, rest⟩ := v
    rw [ht] at h
    obtain ⟨h1, h2⟩ := takeExact_eq_some ht
    cases h
    exact ⟨h1, by rw [h2]⟩

theorem readU32_ok {s s₁ : St} {v : ℕ} (h : readU32 s = .ok (v, s₁)) :
    v = u32le (s.data.take 4) ∧ s₁ = ⟨s.data.drop 4, s.pos + 4⟩ := by
  obtain ⟨bs, t₁, h1, h2⟩ := bind_ok_elim h
  obtain ⟨hb, hst⟩ := readBytes_ok h1
  rw [pure_run] at h2
  cases h2
  exact ⟨by rw [hb], hst⟩

theorem readByte_ok {s s₁ : St} {b : ℕ} (h : readByte s = .ok (b, s₁)) :
    b = s.data.headD 0 ∧ s₁ = ⟨s.data.tail, s.pos + 1⟩ := by
  unfold readByte at h
  cases hd : s.data with
  | nil => rw [hd] at h; cases h
  | cons x xs =>
    rw [hd] at h
    cases h
    exact ⟨rfl, rfl⟩

/-! ## A5: MET (read_met)

Two header layouts selected by the magic code: the legacy code 599658943
skips the one-byte sensor-count field entirely and sets the count to 0;
any other code consumes exactly one byte as the count.  The minimum
pressure field follows immediately in both layouts. -/

structure MetHeader where
  met_code : ℕ
  met_n : ℕ
  met_nsen : ℕ
  met_minp : ℕ
  met_maxp : ℕ
  met_mint : ℕ
  met_maxt : ℕ
  met_minh : ℕ
  met_maxh : ℕ
  met_timeref : ℕ

/-- The sensor-count field: not consumed from the stream for the legacy
magic code (the count is set to 0), one byte otherwise. -/
def metNsen (code : ℕ) : M ℕ :=
  if code = 599658943 then pure 0 else readByte

def metHeader : M MetHeader := do
  let code ← readU32
  let n ← readU32
  let nsen ← metNsen code
  let minp ← readF32w
  let maxp ← readF32w
  let mint ← readF32w
  let maxt ← readF32w
  let minh ← readF32w
  let maxh ← readF32w
  let timeref ← readU32
  pure ⟨code, n, nsen, minp, maxp, mint, maxt, minh, maxh, timeref⟩

structure MetSample where
  t : ℕ
  rf : List ℕ
  d1 : ℕ
  d2 : ℕ
  d3 : ℕ

def metSample : M MetSample := do
  let t ← readU32
  let rf ← readByte
  let d1 ← readF32w
  let d2 ← readF32w
  let d3 ← readF32w
  pure ⟨t, rainflagByte rf, d1, d2, d3⟩

structure MetData where
  met_code : ℕ
  met_n : ℕ
  met_nsen : ℕ
  met_minp : ℕ
  met_maxp : ℕ
  met_mint : ℕ
  met_maxt : ℕ
  met_minh : ℕ
  met_maxh : ℕ
  met_timeref : ℕ
  t_obs : List ℕ
  met_rf : List (List ℕ)
  met_dat1 : List ℕ
  met_dat2 : List ℕ
  met_dat3 : List ℕ

def metRet (h : MetHeader) (smps : List MetSample) : M MetData :=
  pure ⟨h.met_code, h.met_n, h.met_nsen, h.met_minp, h.met_maxp, h.met_mint,
    h.met_maxt, h.met_minh, h.met_maxh, h.met_timeref,
    smps.map (·.t), smps.map (·.rf), smps.map (·.d1), smps.map (·.d2),
    smps.map (·.d3)⟩

def read_met : M MetData :=
  genDecode metHeader (fun h => h.met_n) (fun _ => metSample) metRet

/-! ## Claim C9: the MET legacy header layout -/

/-- C9: with the legacy magic 599658943 the sensor-count read consumes no
byte and yields 0, with any other magic it consumes exactly one byte; and
in a successfully parsed header the minimum-pressure field is the word at
byte offset 8 (immediately after the sample count) in the legacy layout,
while otherwise byte 8 is the sensor count and the minimum pressure is the
word at offset 9. -/
theorem claim9_met_legacy_magic :
    (∀ s : St, metNsen 599658943 s = .ok (0, s)) ∧
    (∀ (c : ℕ) (s : St), c ≠ 599658943 → metNsen c s = readByte s) ∧
    (∀ (B : List ℕ) (h : MetHeader) (s₂ : St),
      metHeader ⟨B, 0⟩ = .ok (h, s₂) →
      (h.met_code = 599658943 →
        h.met_nsen = 0 ∧ h.met_minp = u32le ((B.drop 8).take 4)) ∧
      (h.met_code ≠ 599658943 →
        h.met_nsen = (B.drop 8).headD 0 ∧
        h.met_minp = u32le ((B.drop 9).take 4))) := by
  refine ⟨fun s => rfl, fun c s hc => by unfold metNsen; rw [if_neg hc], ?_⟩
  intro B h s₂ hok
  obtain ⟨code, sA, h1, hrest⟩ := bind_ok_elim hok
  obtain ⟨n, sB, h2, hrest⟩ := bind_ok_elim hrest
  obtain ⟨nsen, sC, h3, hrest⟩ := bind_ok_elim hrest
  obtain ⟨minp, sD, h4, hrest⟩ := bind_ok_elim hrest
  obtain ⟨maxp, sE, h5, hrest⟩ := bind_ok_elim hrest
  obtain ⟨mint, sF, h6, hrest⟩ := bind_ok_elim hrest
  obtain ⟨maxt, sG, h7, hrest⟩ := bind_ok_elim hrest
  obtain ⟨minh, sH, h8, hrest⟩ := bind_ok_elim hrest
  obtain ⟨maxh, sI, h9, hrest⟩ := bind_ok_elim hrest
  obtain ⟨timeref, sJ, h10, hrest⟩ := bind_ok_elim hrest
  rw [pure_run] at hrest
  obtain ⟨hh, -⟩ := Prod.mk.injEq .. ▸ (Except.ok.inj hrest)
  subst hh
  obtain ⟨-, hsA⟩ := readU32_ok h1
  obtain ⟨-, hsB⟩ := readU32_ok h2
  subst hsA
  subst hsB
  constructor
  · intro hcode
    have h3p : nsen = 0 ∧ sC = St.mk ((B.drop 4).drop 4) (0 + 4 + 4) := by
      unfold metNsen at h3
      rw [if_pos hcode] at h3
      rw [pure_run] at h3
      exact ⟨(Prod.mk.injEq .. ▸ Except.ok.inj h3).1.symm,
        ((Prod.mk.injEq .. ▸ Except.ok.inj h3).2).symm⟩
    obtain ⟨hn0, hsC⟩ := h3p
    subst hsC
    obtain ⟨hm, -⟩ := readU32_ok h4
    refine ⟨hn0, ?_⟩
    rw [hm]
    simp [List.drop_drop]
  · intro hcode
    unfold metNsen at h3
    rw [if_neg hcode] at h3
    obtain ⟨hb, hsC⟩ := readByte_ok h3
    subst hsC
    obtain ⟨hm, -⟩ := readU32_ok h4
    constructor
    · rw [hb]
      simp [List.drop_drop]
    · rw [hm]
      simp [List.drop_drop, List.tail_drop]

/-- A legacy MET buffer: the old magic code, n = 0, and the seven remaining
header words all zero. -/
def metBufLegacy : List ℕ :=
  [191, 17, 190, 35, 0, 0, 0, 0,
   0, 0, 0, 0, 0, 0, 0, 0, 0, 0, 0, 0, 0, 0, 0, 0, 0, 0, 0, 0,
   0, 0, 0, 0, 0, 0, 0, 0]

/-- C9 witness: the three parts of the claim instantiated at concrete
inputs: the legacy no-consume fact at an explicit state, the one-byte
consume fact at magic 1, and the positional fact at a 36-byte legacy
buffer. -/
theorem claim9_witness :
    metNsen 599658943 ⟨[9, 9], 7⟩ = .ok (0, ⟨[9, 9], 7⟩) ∧
    ((1 : ℕ) ≠ 599658943 ∧ metNsen 1 ⟨[9, 9], 7⟩ = readByte ⟨[9, 9], 7⟩) ∧
    (metHeader ⟨metBufLegacy, 0⟩ =
      .ok (⟨599658943, 0, 0, 0, 0, 0, 0, 0, 0, 0⟩, ⟨[], 36⟩) ∧
     ((⟨599658943, 0, 0, 0, 0, 0, 0, 0, 0, 0⟩ : MetHeader).met_code = 599658943 →
       (⟨599658943, 0, 0, 0, 0, 0, 0, 0, 0, 0⟩ : MetHeader).met_nsen = 0 ∧
       (⟨599658943, 0, 0, 0, 0, 0, 0, 0, 0, 0⟩ : MetHeader).met_minp =
         u32le ((metBufLegacy.drop 8).take 4))) :=
  ⟨claim9_met_legacy_magic.1 ⟨[9, 9], 7⟩,
   ⟨by norm_num, claim9_met_legacy_magic.2.1 1 ⟨[9, 9], 7⟩ (by norm_num)⟩,
   ⟨rfl, (claim9_met_legacy_magic.2.2 metBufLegacy _ _ rfl).1⟩⟩

/-! ## A19: HKD (read_hkd)

The header reads a selector byte (rendered MSB-first, as the source's
08b-format string) whose bits gate six optional per-sample groups for the
whole file.  Every gated-absent group still appends its missing-value
marker (None in the source, none here) on every iteration.  The GPS
longitude/latitude floats are passed through convert_lonlat in the source;
here the raw words are kept in the sample record and the codec is applied
in the return phase, producing the same lists. -/

structure HkdHeader where
  hkd_code : ℕ
  hkd_n : ℕ
  hkd_timeref : ℕ
  hkd_select : List ℕ

def hkdHeader : M HkdHeader := do
  let code ← readU32
  let n ← readU32
  let timeref ← readU32
  let b ← readByte
  let _ ← readSkip 3
  pure ⟨code, n, timeref, bitsOfByte b⟩

structure HkdSample where
  t : ℕ
  alarm : ℤ
  lon : Option ℕ
  lat : Option ℕ
  amb : List (Option ℕ)
  sta : List (Option ℕ)
  fsh : Option ℕ
  qlt : Option (List ℕ)
  sts : Option (List ℕ)

/-- The GPS group: two floats when selector bit 1 (of the MSB-first
rendering, as the source indexes it) is set, the missing marker pair
otherwise. -/
def hkdGps (sel : List ℕ) : M (Option ℕ × Option ℕ) :=
  if sel.getD 1 0 ≠ 0 then do
    let lon ← readF32w
    let lat ← readF32w
    pure (some lon, some lat)
  else pure (none, none)

/-- The ambient-temperature group: one 4-value column per sample. -/
def hkdAmb (sel : List ℕ) : M (List (Option ℕ)) :=
  if sel.getD 2 0 ≠ 0 then do
    let a ← readF32w
    let b ← readF32w
    let c ← readF32w
    let d ← readF32w
    pure [some a, some b, some c, some d]
  else pure [none, none, none, none]

/-- The receiver-stability group: one 2-value column per sample. -/
def hkdStab (sel : List ℕ) : M (List (Option ℕ)) :=
  if sel.getD 3 0 ≠ 0 then do
    let a ← readF32w
    let b ← readF32w
    pure [some a, some b]
  else pure [none, none]

/-- The remaining-flash-memory counter. -/
def hkdFsh (sel : List ℕ) : M (Option ℕ) :=
  if sel.getD 4 0 ≠ 0 then do
    let v ← readU32
    pure (some v)
  else pure none

/-- The quality bitfield, decoded through hkdQlt. -/
def hkdQltRead (sel : List ℕ) : M (Option (List ℕ)) :=
  if sel.getD 5 0 ≠ 0 then do
    let w ← readU32
    pure (some (hkdQlt w))
  else pure none

/-- The status bitfield, decoded through hkdSts. -/
def hkdStsRead (sel : List ℕ) : M (Option (List ℕ)) :=
  if sel.getD 6 0 ≠ 0 then do
    let w ← readU32
    pure (some (hkdSts w))
  else pure none

def hkdSample (sel : List ℕ) : M HkdSample := do
  let t ← readU32
  let alarm ← readSByte
  let gps ← hkdGps sel
  let amb ← hkdAmb sel
  let sta ← hkdStab sel
  let fsh ← hkdFsh sel
  let qlt ← hkdQltRead sel
  let sts ← hkdStsRead sel
  pure ⟨t, alarm, gps.1, gps.2, amb, sta, fsh, qlt, sts⟩

structure HkdData where
  hkd_code : ℕ
  hkd_n : ℕ
  hkd_timeref : ℕ
  hkd_select : List ℕ
  t_obs : List ℕ
  hkd_alarm : List ℤ
  hkd_lon : List (Option ℚ)
  hkd_lat : List (Option ℚ)
  hkd_amb : List (List (Option ℕ))
  hkd_sta : List (List (Option ℕ))
  hkd_fsh : List (Option ℕ)
  hkd_qlt : List (Option (List ℕ))
  hkd_sts : List (Option (List ℕ))

def hkdRet (h : HkdHeader) (smps : List HkdSample) : M HkdData :=
  pure ⟨h.hkd_code, h.hkd_n, h.hkd_timeref, h.hkd_select,
    smps.map (·.t), smps.map (·.alarm),
    smps.map (fun x => x.lon.map (fun w => convert_lonlat (f32q w))),
    smps.map (fun x => x.lat.map (fun w => convert_lonlat (f32q w))),
    smps.map (·.amb), smps.map (·.sta), smps.map (·.fsh),
    smps.map (·.qlt), smps.map (·.sts)⟩

def read_hkd : M HkdData :=
  genDecode hkdHeader (fun h => h.hkd_n) (fun h => hkdSample h.hkd_select) hkdRet

/-! ## Claim C5: the gated-absent GPS group keeps its slot -/

theorem hkdSample_gps0 {sel : List ℕ} (hg : sel.getD 1 0 = 0) {s s₂ : St}
    {smp : HkdSample} (h : hkdSample sel s = .ok (smp, s₂)) :
    smp.lon = none ∧ smp.lat = none := by
  obtain ⟨t, sA, h1, hrest⟩ := bind_ok_elim h
  obtain ⟨alarm, sB, h2, hrest⟩ := bind_ok_elim hrest
  obtain ⟨gps, sC, h3, hrest⟩ := bind_ok_elim hrest
  have hg3 : gps = (none, none) := by
    unfold hkdGps at h3
    rw [if_neg (by rw [hg]; simp)] at h3
    rw [pure_run] at h3
    exact ((Prod.mk.injEq .. ▸ Except.ok.inj h3).1).symm
  obtain ⟨amb, sD, h4, hrest⟩ := bind_ok_elim hrest
  obtain ⟨sta, sE, h5, hrest⟩ := bind_ok_elim hrest
  obtain ⟨fsh, sF, h6, hrest⟩ := bind_ok_elim hrest
  obtain ⟨qlt, sG, h7, hrest⟩ := bind_ok_elim hrest
  obtain ⟨sts, sH, h8, hrest⟩ := bind_ok_elim hrest
  rw [pure_run] at hrest
  have hsmp := ((Prod.mk.injEq .. ▸ Except.ok.inj hrest).1)
  rw [← hsmp, hg3]
  exact ⟨rfl, rfl⟩

/-- C5: whenever an HKD decode succeeds and the GPS selector bit (position
1 of the MSB-first selector rendering, the bit the source gates on) is 0,
the longitude and latitude sequences consist of n missing-value markers
each - the slot is appended on every iteration, never omitted - and the
timestamp sequence also has length n. -/
theorem claim5_hkd_gps_gated (B : List ℕ) (d : HkdData) (s₂ : St)
    (hok : read_hkd ⟨B, 0⟩ = .ok (d, s₂))
    (hgate : d.hkd_select.getD 1 0 = 0) :
    d.hkd_lon = List.replicate d.hkd_n none ∧
    d.hkd_lat = List.replicate d.hkd_n none ∧
    d.t_obs.length = d.hkd_n := by
  obtain ⟨h, s₁, hh, hrest⟩ := bind_ok_elim hok
  obtain ⟨smps, sL, hloop, hret⟩ := bind_ok_elim hrest
  unfold hkdRet at hret
  rw [pure_run] at hret
  have hd := ((Prod.mk.injEq .. ▸ Except.ok.inj hret).1)
  have hlen : smps.length = h.hkd_n := readN_length hloop
  have hsel : d.hkd_select = h.hkd_select := by rw [← hd]
  have hn : d.hkd_n = h.hkd_n := by rw [← hd]
  have hgate2 : h.hkd_select.getD 1 0 = 0 := by rw [← hsel]; exact hgate
  have hmem : ∀ x ∈ smps, x.lon = none ∧ x.lat = none := by
    intro x hx
    obtain ⟨t₁, t₂, hrun⟩ := readN_mem hloop x hx
    exact hkdSample_gps0 hgate2 hrun
  refine ⟨?_, ?_, ?_⟩
  · have : d.hkd_lon = smps.map (fun x => x.lon.map (fun w => convert_lonlat (f32q w))) := by
      rw [← hd]
    rw [this, hn]
    refine List.eq_replicate_iff.mpr ⟨by simp [hlen], ?_⟩
    intro b hb
    obtain ⟨x, hx, hbx⟩ := List.mem_map.mp hb
    rw [← hbx, (hmem x hx).1]
    rfl
  · have : d.hkd_lat = smps.map (fun x => x.lat.map (fun w => convert_lonlat (f32q w))) := by
      rw [← hd]
    rw [this, hn]
    refine List.eq_replicate_iff.mpr ⟨by simp [hlen], ?_⟩
    intro b hb
    obtain ⟨x, hx, hbx⟩ := List.mem_map.mp hb
    rw [← hbx, (hmem x hx).2]
    rfl
  · have : d.t_obs = smps.map (·.t) := by rw [← hd]
    rw [this, hn]
    simp [hlen]

/-- An HKD buffer with n = 2 and selector byte 0: every optional group is
gated absent and each sample is a timestamp plus an alarm byte. -/
def hkdBufC5 : List ℕ :=
  [0, 0, 0, 0, 2, 0, 0, 0, 0, 0, 0, 0, 0, 0, 0, 0,
   0, 0, 0, 0, 0, 0, 0, 0, 0, 0]

/-- The dataset that hkdBufC5 decodes to. -/
def hkdDataC5 : HkdData :=
  ⟨0, 2, 0, [0, 0, 0, 0, 0, 0, 0, 0], [0, 0], [0, 0], [none, none],
   [none, none], [[none, none, none, none], [none, none, none, none]],
   [[none, none], [none, none]], [none, none], [none, none], [none, none]⟩

/-- C5 witness: the gating theorem instantiated at the 26-byte buffer. -/
theorem claim5_witness :
    read_hkd ⟨hkdBufC5, 0⟩ = .ok (hkdDataC5, ⟨[], 26⟩) ∧
    hkdDataC5.hkd_select.getD 1 0 = 0 ∧
    (hkdDataC5.hkd_lon = List.replicate hkdDataC5.hkd_n none ∧
     hkdDataC5.hkd_lat = List.replicate hkdDataC5.hkd_n none ∧
     hkdDataC5.t_obs.length = hkdDataC5.hkd_n) :=
  ⟨rfl, rfl, claim5_hkd_gps_gated hkdBufC5 hkdDataC5 ⟨[], 26⟩ rfl rfl⟩

/-! ## A1: LWP (read_lwp) and A2: IWV (read_iwv)

Identical layouts with distinct field names: a six-word header, then per
sample a signed timestamp, a rain-flag byte, one float and one
angle-coded float.  All per-sample lists are initialised before the loop,
so the return phase is total. -/

structure LwpHeader where
  lwp_code : ℕ
  lwp_n : ℕ
  lwp_min : ℕ
  lwp_max : ℕ
  lwp_timeref : ℕ
  lwp_retrieval : ℕ

def lwpHeader : M LwpHeader := do
  let code ← readU32
  let n ← readU32
  let mn ← readF32w
  let mx ← readF32w
  let timeref ← readU32
  let retrieval ← readU32
  pure ⟨code, n, mn, mx, timeref, retrieval⟩

structure ScalarSample where
  t : ℤ
  rf : List ℕ
  dat : ℕ
  ang : ℕ

/-- One LWP/IWV sample: timestamp, rain flag, scalar float, angle float. -/
def scalarSample : M ScalarSample := do
  let t ← readI32
  let rf ← readByte
  let dat ← readF32w
  let ang ← readF32w
  pure ⟨t, rainflagByte rf, dat, ang⟩

structure LwpData where
  lwp_code : ℕ
  lwp_n : ℕ
  lwp_min : ℕ
  lwp_max : ℕ
  lwp_timeref : ℕ
  lwp_retrieval : ℕ
  t_obs : List ℤ
  lwp_rf : List (List ℕ)
  lwp_dat : List ℕ
  lwp_ang : List (ℚ × ℚ)

def lwpRet (h : LwpHeader) (smps : List ScalarSample) : M LwpData :=
  pure ⟨h.lwp_code, h.lwp_n, h.lwp_min, h.lwp_max, h.lwp_timeref,
    h.lwp_retrieval, smps.map (·.t), smps.map (·.rf), smps.map (·.dat),
    smps.map (fun x => ang_to_zen_azm (f32q x.ang))⟩

def read_lwp : M LwpData :=
  genDecode lwpHeader (fun h => h.lwp_n) (fun _ => scalarSample) lwpRet

structure IwvHeader where
  iwv_code : ℕ
  iwv_n : ℕ
  iwv_min : ℕ
  iwv_max : ℕ
  iwv_timeref : ℕ
  iwv_retrieval : ℕ

def iwvHeader : M IwvHeader := do
  let code ← readU32
  let n ← readU32
  let mn ← readF32w
  let mx ← readF32w
  let timeref ← readU32
  let retrieval ← readU32
  pure ⟨code, n, mn, mx, timeref, retrieval⟩

structure IwvData where
  iwv_code : ℕ
  iwv_n : ℕ
  iwv_min : ℕ
  iwv_max : ℕ
  iwv_timeref : ℕ
  iwv_retrieval : ℕ
  t_obs : List ℤ
  iwv_rf : List (List ℕ)
  iwv_dat : List ℕ
  iwv_ang : List (ℚ × ℚ)

def iwvRet (h : IwvHeader) (smps : List ScalarSample) : M IwvData :=
  pure ⟨h.iwv_code, h.iwv_n, h.iwv_min, h.iwv_max, h.iwv_timeref,
    h.iwv_retrieval, smps.map (·.t), smps.map (·.rf), smps.map (·.dat),
    smps.map (fun x => ang_to_zen_azm (f32q x.ang))⟩

def read_iwv : M IwvData :=
  genDecode iwvHeader (fun h => h.iwv_n) (fun _ => scalarSample) iwvRet

/-! ## A4: BRT (read_brt)

Batch-unpacked axis arrays and per-sample payload; brt_dat is first
assigned inside the sample loop. -/

structure BrtHeader where
  brt_code : ℕ
  brt_n : ℕ
  brt_timeref : ℕ
  brt_freqn : ℕ
  brt_freq : List ℕ
  brt_min : List ℕ
  brt_max : List ℕ

def brtHeader : M BrtHeader := do
  let code ← readU32
  let n ← readU32
  let timeref ← readU32
  let freqn ← readU32
  let freq ← readPack4 (freqn : ℤ)
  let mn ← readPack4 (freqn : ℤ)
  let mx ← readPack4 (freqn : ℤ)
  pure ⟨code, n, timeref, freqn, freq, mn, mx⟩

structure BrtSample where
  t : ℤ
  rf : List ℕ
  dat : List ℕ
  ang : ℕ

def brtSample (freqn : ℕ) : M BrtSample := do
  let t ← readI32
  let rf ← readByte
  let dat ← readPack4 (freqn : ℤ)
  let ang ← readF32w
  pure ⟨t, rainflagByte rf, dat, ang⟩

structure BrtData where
  brt_code : ℕ
  brt_n : ℕ
  brt_timeref : ℕ
  brt_freqn : ℕ
  brt_freq : List ℕ
  brt_min : List ℕ
  brt_max : List ℕ
  t_obs : List ℤ
  brt_rf : List (List ℕ)
  brt_dat : List (List ℕ)
  brt_ang : List (ℚ × ℚ)

def brtRet (h : BrtHeader) (smps : List BrtSample) : M BrtData :=
  if smps.isEmpty then unboundErr
  else pure ⟨h.brt_code, h.brt_n, h.brt_timeref, h.brt_freqn, h.brt_freq,
    h.brt_min, h.brt_max, smps.map (·.t), smps.map (·.rf), smps.map (·.dat),
    smps.map (fun x => ang_to_zen_azm (f32q x.ang))⟩

def read_brt : M BrtData :=
  genDecode brtHeader (fun h => h.brt_n) (fun h => brtSample h.brt_freqn) brtRet

/-! ## A8: TPB (read_tpb) and A10: HPC (read_hpc)

Same shape as TPC: altitude axis, batch per-sample payload, payload first
assigned inside the loop. -/

structure TpbHeader where
  tpb_code : ℕ
  tpb_n : ℕ
  tpb_min : ℕ
  tpb_max : ℕ
  tpb_timeref : ℕ
  tpb_retrieval : ℕ
  tpb_altn : ℕ
  tpb_alt : List ℤ

def tpbHeader : M TpbHeader := do
  let code ← readU32
  let n ← readU32
  let mn ← readF32w
  let mx ← readF32w
  let timeref ← readU32
  let retrieval ← readU32
  let altn ← readU32
  let alt ← readPack4i (altn : ℤ)
  pure ⟨code, n, mn, mx, timeref, retrieval, altn, alt⟩

structure TpbSample where
  t : ℤ
  rf : List ℕ
  dat : List ℕ

def tpbSample (altn : ℕ) : M TpbSample := do
  let t ← readI32
  let rf ← readByte
  let dat ← readPack4 (altn : ℤ)
  pure ⟨t, rainflagByte rf, dat⟩

structure TpbData where
  tpb_code : ℕ
  tpb_n : ℕ
  tpb_min : ℕ
  tpb_max : ℕ
  tpb_timeref : ℕ
  tpb_retrieval : ℕ
  tpb_altn : ℕ
  tpb_alt : List ℤ
  t_obs : List ℤ
  tpb_rf : List (List ℕ)
  tpb_dat : List (List ℕ)

def tpbRet (h : TpbHeader) (smps : List TpbSample) : M TpbData :=
  if smps.isEmpty then unboundErr
  else pure ⟨h.tpb_code, h.tpb_n, h.tpb_min, h.tpb_max, h.tpb_timeref,
    h.tpb_retrieval, h.tpb_altn, h.tpb_alt,
    smps.map (·.t), smps.map (·.rf), smps.map (·.dat)⟩

def read_tpb : M TpbData :=
  genDecode tpbHeader (fun h => h.tpb_n) (fun h => tpbSample h.tpb_altn) tpbRet

structure HpcHeader where
  hpc_code : ℕ
  hpc_n : ℕ
  hpc_min : ℕ
  hpc_max : ℕ
  hpc_timeref : ℕ
  hpc_retrieval : ℕ
  hpc_altn : ℕ
  hpc_alt : List ℤ

def hpcHeader : M HpcHeader := do
  let code ← readU32
  let n ← readU32
  let mn ← readF32w
  let mx ← readF32w
  let timeref ← readU32
  let retrieval ← readU32
  let altn ← readU32
  let alt ← readPack4i (altn : ℤ)
  pure ⟨code, n, mn, mx, timeref, retrieval, altn, alt⟩

structure HpcSample where
  t : ℤ
  rf : List ℕ
  dat : List ℕ

def hpcSample (altn : ℕ) : M HpcSample := do
  let t ← readI32
  let rf ← readByte
  let dat ← readPack4 (altn : ℤ)
  pure ⟨t, rainflagByte rf, dat⟩

structure HpcData where
  hpc_code : ℕ
  hpc_n : ℕ
  hpc_min : ℕ
  hpc_max : ℕ
  hpc_timeref : ℕ
  hpc_retrieval : ℕ
  hpc_altn : ℕ
  hpc_alt : List ℤ
  t_obs : List ℤ
  hpc_rf : List (List ℕ)
  hpc_dat : List (List ℕ)

def hpcRet (h : HpcHeader) (smps : List HpcSample) : M HpcData :=
  if smps.isEmpty then unboundErr
  else pure ⟨h.hpc_code, h.hpc_n, h.hpc_min, h.hpc_max, h.hpc_timeref,
    h.hpc_retrieval, h.hpc_altn, h.hpc_alt,
    smps.map (·.t), smps.map (·.rf), smps.map (·.dat)⟩

def read_hpc : M HpcData :=
  genDecode hpcHeader (fun h => h.hpc_n) (fun h => hpcSample h.hpc_altn) hpcRet

/-! ## A11: LPR (read_lpr)

Like TPC but the per-sample payload is read element by element. -/

structure LprHeader where
  lpr_code : ℕ
  lpr_n : ℕ
  lpr_min : ℕ
  lpr_max : ℕ
  lpr_timeref : ℕ
  lpr_retrieval : ℕ
  lpr_altn : ℕ
  lpr_alt : List ℤ

def lprHeader : M LprHeader := do
  let code ← readU32
  let n ← readU32
  let mn ← readF32w
  let mx ← readF32w
  let timeref ← readU32
  let retrieval ← readU32
  let altn ← readU32
  let alt ← readPack4i (altn : ℤ)
  pure ⟨code, n, mn, mx, timeref, retrieval, altn, alt⟩

structure LprSample where
  t : ℤ
  rf : List ℕ
  dat : List ℕ

def lprSample (altn : ℕ) : M LprSample := do
  let t ← readI32
  let rf ← readByte
  let dat ← readN readF32w altn
  pure ⟨t, rainflagByte rf, dat⟩

structure LprData where
  lpr_code : ℕ
  lpr_n : ℕ
  lpr_min : ℕ
  lpr_max : ℕ
  lpr_timeref : ℕ
  lpr_retrieval : ℕ
  lpr_altn : ℕ
  lpr_alt : List ℤ
  t_obs : List ℤ
  lpr_rf : List (List ℕ)
  lpr_dat : List (List ℕ)

def lprRet (h : LprHeader) (smps : List LprSample) : M LprData :=
  if smps.isEmpty then unboundErr
  else pure ⟨h.lpr_code, h.lpr_n, h.lpr_min, h.lpr_max, h.lpr_timeref,
    h.lpr_retrieval, h.lpr_altn, h.lpr_alt,
    smps.map (·.t), smps.map (·.rf), smps.map (·.dat)⟩

def read_lpr : M LprData :=
  genDecode lprHeader (fun h => h.lpr_n) (fun h => lprSample h.lpr_altn) lprRet

/-! ## A12: IRT (read_irt)

Element-loop frequency axis; per sample a single float payload (stacked as
a one-row column, first assigned inside the loop) and an angle float. -/

structure IrtHeader where
  irt_code : ℕ
  irt_n : ℕ
  irt_min : ℕ
  irt_max : ℕ
  irt_timeref : ℕ
  irt_freqn : ℕ
  irt_freq : List ℕ

def irtHeader : M IrtHeader := do
  let code ← readU32
  let n ← readU32
  let mn ← readF32w
  let mx ← readF32w
  let timeref ← readU32
  let freqn ← readU32
  let freq ← readN readF32w freqn
  pure ⟨code, n, mn, mx, timeref, freqn, freq⟩

structure IrtSample where
  t : ℤ
  rf : List ℕ
  dat : ℕ
  ang : ℕ

def irtSample : M IrtSample := do
  let t ← readI32
  let rf ← readByte
  let dat ← readF32w
  let ang ← readF32w
  pure ⟨t, rainflagByte rf, dat, ang⟩

structure IrtData where
  irt_code : ℕ
  irt_n : ℕ
  irt_min : ℕ
  irt_max : ℕ
  irt_timeref : ℕ
  irt_freqn : ℕ
  irt_freq : List ℕ
  t_obs : List ℤ
  irt_rf : List (List ℕ)
  irt_dat : List ℕ
  irt_ang : List (ℚ × ℚ)

def irtRet (h : IrtHeader) (smps : List IrtSample) : M IrtData :=
  if smps.isEmpty then unboundErr
  else pure ⟨h.irt_code, h.irt_n, h.irt_min, h.irt_max, h.irt_timeref,
    h.irt_freqn, h.irt_freq, smps.map (·.t), smps.map (·.rf),
    smps.map (·.dat), smps.map (fun x => ang_to_zen_azm (f32q x.ang))⟩

def read_irt : M IrtData :=
  genDecode irtHeader (fun h => h.irt_n) (fun _ => irtSample) irtRet

/-! ## A16: CBH (read_cbh) and A17: BLH (read_blh)

Scalar per-sample payloads appended to lists initialised before the loop;
CBH reads its header unsigned, BLH signed. -/

structure CbhHeader where
  cbh_code : ℕ
  cbh_n : ℕ
  cbh_min : ℕ
  cbh_max : ℕ
  cbh_timeref : ℕ

def cbhHeader : M CbhHeader := do
  let code ← readU32
  let n ← readU32
  let mn ← readF32w
  let mx ← readF32w
  let timeref ← readU32
  pure ⟨code, n, mn, mx, timeref⟩

structure CbhSample where
  t : ℤ
  rf : List ℕ
  dat : ℕ

def cbhSample : M CbhSample := do
  let t ← readI32
  let rf ← readByte
  let dat ← readF32w
  pure ⟨t, rainflagByte rf, dat⟩

structure CbhData where
  cbh_code : ℕ
  cbh_n : ℕ
  cbh_min : ℕ
  cbh_max : ℕ
  cbh_timeref : ℕ
  t_obs : List ℤ
  cbh_rf : List (List ℕ)
  cbh_dat : List ℕ

def cbhRet (h : CbhHeader) (smps : List CbhSample) : M CbhData :=
  pure ⟨h.cbh_code, h.cbh_n, h.cbh_min, h.cbh_max, h.cbh_timeref,
    smps.map (·.t), smps.map (·.rf), smps.map (·.dat)⟩

def read_cbh : M CbhData :=
  genDecode cbhHeader (fun h => h.cbh_n) (fun _ => cbhSample) cbhRet

structure BlhHeader where
  blh_code : ℤ
  blh_n : ℤ
  blh_min : ℕ
  blh_max : ℕ
  blh_timeref : ℤ

def blhHeader : M BlhHeader := do
  let code ← readI32
  let n ← readI32
  let mn ← readF32w
  let mx ← readF32w
  let timeref ← readI32
  pure ⟨code, n, mn, mx, timeref⟩

structure BlhSample where
  t : ℤ
  rf : List ℕ
  dat : ℕ

def blhSample : M BlhSample := do
  let t ← readI32
  let rf ← readByte
  let dat ← readF32w
  pure ⟨t, rainflagByte rf, dat⟩

structure BlhData where
  blh_code : ℤ
  blh_n : ℤ
  blh_min : ℕ
  blh_max : ℕ
  blh_timeref : ℤ
  blh_t : List ℤ
  blh_rf : List (List ℕ)
  blh_dat : List ℕ

def blhRet (h : BlhHeader) (smps : List BlhSample) : M BlhData :=
  pure ⟨h.blh_code, h.blh_n, h.blh_min, h.blh_max, h.blh_timeref,
    smps.map (·.t), smps.map (·.rf), smps.map (·.dat)⟩

def read_blh : M BlhData :=
  genDecode blhHeader (fun h => h.blh_n.toNat) (fun _ => blhSample) blhRet

/-! ## A13b: BLB (read_blb)

The header carries both a frequency axis and an angle axis (the angles are
decoded through ang_to_zen_azm; the raw words are kept in the header
record and the codec is applied in the return phase).  The per-sample flag
byte is the 2-field rain/scan-mode decode (characters 0 and 5-6 of the
MSB-first rendering), and per sample the payload is one batch unpack of
angn+1 floats per frequency, so blb_dat is first assigned inside the inner
loop and stays unassigned when n = 0 or the frequency count is 0. -/

/-- The BLB rain/mode flag: [int(tmp[0]), int(tmp[5]+tmp[6], 2)] on the
MSB-first rendering of the byte. -/
def blbRf (b : ℕ) : List ℕ :=
  [b / 128 % 2, 2 * (b / 4 % 2) + b / 2 % 2]

structure BlbHeader where
  blb_code : ℕ
  blb_n : ℕ
  blb_freqn : ℕ
  blb_min : List ℕ
  blb_max : List ℕ
  blb_timeref : ℕ
  blb_freq : List ℕ
  blb_angn : ℕ
  blb_angRaw : List ℕ

def blbHeader : M BlbHeader := do
  let code ← readU32
  let n ← readU32
  let freqn ← readU32
  let mn ← readPack4 (freqn : ℤ)
  let mx ← readPack4 (freqn : ℤ)
  let timeref ← readU32
  let freq ← readPack4 (freqn : ℤ)
  let angn ← readU32
  let angs ← readPack4 (angn : ℤ)
  pure ⟨code, n, freqn, mn, mx, timeref, freq, angn, angs⟩

structure BlbSample where
  t : ℤ
  rf : List ℕ
  cols : List (List ℕ)

def blbSample (freqn angn : ℕ) : M BlbSample := do
  let t ← readI32
  let b ← readByte
  let cols ← readN (readPack4 ((angn : ℤ) + 1)) freqn
  pure ⟨t, blbRf b, cols⟩

structure BlbData where
  blb_code : ℕ
  blb_n : ℕ
  blb_timeref : ℕ
  blb_freqn : ℕ
  blb_freq : List ℕ
  blb_min : List ℕ
  blb_max : List ℕ
  blb_angn : ℕ
  blb_ang : List (ℚ × ℚ)
  t_obs : List ℤ
  blb_rf : List (List ℕ)
  blb_dat : List (List ℕ)

def blbRet (h : BlbHeader) (smps : List BlbSample) : M BlbData :=
  if ((smps.map (·.cols)).flatten).isEmpty then unboundErr
  else pure ⟨h.blb_code, h.blb_n, h.blb_timeref, h.blb_freqn, h.blb_freq,
    h.blb_min, h.blb_max, h.blb_angn,
    h.blb_angRaw.map (fun w => ang_to_zen_azm (f32q w)),
    smps.map (·.t), smps.map (·.rf), (smps.map (·.cols)).flatten⟩

def read_blb : M BlbData :=
  genDecode blbHeader (fun h => h.blb_n)
    (fun h => blbSample h.blb_freqn h.blb_angn) blbRet

/-! ## A14: STA (read_sta)

Six stability indices per sample, read element by element with the local
constant nindex = 6; sta_dat is first assigned inside the loop. -/

structure StaHeader where
  sta_code : ℕ
  sta_n : ℕ
  sta_min : ℕ
  sta_max : ℕ
  sta_list : List ℤ
  sta_timeref : ℕ

def staHeader : M StaHeader := do
  let code ← readU32
  let n ← readU32
  let mn ← readF32w
  let mx ← readF32w
  let lst ← readPack4i 6
  let timeref ← readU32
  pure ⟨code, n, mn, mx, lst, timeref⟩

structure StaSample where
  t : ℤ
  rf : List ℕ
  dat : List ℕ

def staSample : M StaSample := do
  let t ← readI32
  let rf ← readByte
  let dat ← readN readF32w 6
  pure ⟨t, rainflagByte rf, dat⟩

structure StaData where
  sta_code : ℕ
  sta_n : ℕ
  sta_min : ℕ
  sta_max : ℕ
  sta_list : List ℤ
  sta_timeref : ℕ
  t_obs : List ℤ
  sta_rf : List (List ℕ)
  sta_dat : List (List ℕ)

def staRet (h : StaHeader) (smps : List StaSample) : M StaData :=
  if smps.isEmpty then unboundErr
  else pure ⟨h.sta_code, h.sta_n, h.sta_min, h.sta_max, h.sta_list,
    h.sta_timeref, smps.map (·.t), smps.map (·.rf), smps.map (·.dat)⟩

def read_sta : M StaData :=
  genDecode staHeader (fun h => h.sta_n) (fun _ => staSample) staRet

/-! ## A20: ABSCAL.HIS (read_abscal_his)

Variable-length calibration entries.  Each entry starts with a fixed part
ending in the receiver-1 frequency count; when that count exceeds 10 the
source breaks out of the loop (keeping the fixed-part appends already
made) and returns what was accumulated.  Otherwise the entry continues
with the frequency lists and the per-channel arrays. -/

structure CalEnt1 where
  entlen : ℤ
  inst : ℤ
  r1caltype : ℤ
  r2caltype : ℤ
  r1time : ℤ
  r2time : ℤ
  r1tamb : ℕ
  r2tamb : ℕ
  r1pres : ℕ
  r2pres : ℕ
  r1hot : ℕ
  r2hot : ℕ
  r1cold : ℕ
  r2cold : ℕ
  r1freqn : ℤ

/-- The fixed leading part of a calibration entry, through the
receiver-1 frequency count (including the five discarded floats). -/
def calEnt1 : M CalEnt1 := do
  let entlen ← readI32
  let inst ← readI32
  let r1caltype ← readI32
  let r2caltype ← readI32
  let r1time ← readI32
  let r2time ← readI32
  let r1tamb ← readF32w
  let r2tamb ← readF32w
  let r1pres ← readF32w
  let r2pres ← readF32w
  let r1hot ← readF32w
  let r2hot ← readF32w
  let r1cold ← readF32w
  let r2cold ← readF32w
  let _ ← readN readF32w 5
  let r1freqn ← readI32
  pure ⟨entlen, inst, r1caltype, r2caltype, r1time, r2time, r1tamb, r2tamb,
    r1pres, r2pres, r1hot, r2hot, r1cold, r2cold, r1freqn⟩

structure CalEnt2 where
  r1freq : List ℕ
  r2freqn : ℤ
  r2freq : List ℕ
  flag : List ℤ
  gain : List ℕ
  noise : List ℕ
  sysn : List ℕ
  alpha : List ℕ

/-- The remainder of a calibration entry, read only when the receiver-1
frequency count is at most 10. -/
def calEnt2 (r1freqn : ℤ) : M CalEnt2 := do
  let r1freq ← readN readF32w r1freqn.toNat
  let r2freqn ← readI32
  let r2freq ← readN readF32w r2freqn.toNat
  let flag ← readN readI32 (r1freqn + r2freqn).toNat
  let gain ← readN readF32w (r1freqn + r2freqn).toNat
  let noise ← readN readF32w (r1freqn + r2freqn).toNat
  let sysn ← readN readF32w (r1freqn + r2freqn).toNat
  let alpha ← readN readF32w (r1freqn + r2freqn).toNat
  pure ⟨r1freq, r2freqn, r2freq, flag, gain, noise, sysn, alpha⟩

/-- The entry loop with the oversized-count early exit. -/
def abscalLoop : ℕ → List CalEnt1 → List CalEnt2 → M (List CalEnt1 × List CalEnt2)
  | 0, a1, a2 => pure (a1, a2)
  | k + 1, a1, a2 => do
    let e1 ← calEnt1
    if e1.r1freqn > 10 then pure (a1 ++ [e1], a2)
    else do
      let e2 ← calEnt2 e1.r1freqn
      abscalLoop k (a1 ++ [e1]) (a2 ++ [e2])

structure AbscalData where
  cal_code : ℤ
  cal_n : ℤ
  cal_entlen : List ℤ
  cal_inst : List ℤ
  cal_r1caltype : List ℤ
  cal_r2caltype : List ℤ
  cal_r1time : List ℤ
  cal_r2time : List ℤ
  cal_r1tamb : List ℕ
  cal_r2tamb : List ℕ
  cal_r1pres : List ℕ
  cal_r2pres : List ℕ
  cal_r1hot : List ℕ
  cal_r2hot : List ℕ
  cal_r1cold : List ℕ
  cal_r2cold : List ℕ
  cal_r1freqn : List ℤ
  cal_r1freq : List (List ℕ)
  cal_r2freqn : List ℤ
  cal_r2freq : List (List ℕ)
  cal_flag : List (List ℤ)
  cal_gain : List (List ℕ)
  cal_noise : List (List ℕ)
  cal_sysn : List (List ℕ)
  cal_alpha : List (List ℕ)

def abscalHeader : M (ℤ × ℤ) := do
  let code ← readI32
  let n ← readI32
  pure (code, n)

def read_abscal_his : M AbscalData := do
  let h ← abscalHeader
  let acc ← abscalLoop h.2.toNat [] []
  pure ⟨h.1, h.2,
    acc.1.map (·.entlen), acc.1.map (·.inst), acc.1.map (·.r1caltype),
    acc.1.map (·.r2caltype), acc.1.map (·.r1time), acc.1.map (·.r2time),
    acc.1.map (·.r1tamb), acc.1.map (·.r2tamb), acc.1.map (·.r1pres),
    acc.1.map (·.r2pres), acc.1.map (·.r1hot), acc.1.map (·.r2hot),
    acc.1.map (·.r1cold), acc.1.map (·.r2cold), acc.1.map (·.r1freqn),
    acc.2.map (·.r1freq), acc.2.map (·.r2freqn), acc.2.map (·.r2freq),
    acc.2.map (·.flag), acc.2.map (·.gain), acc.2.map (·.noise),
    acc.2.map (·.sysn), acc.2.map (·.alpha)⟩

/-! ## A21: LV0 (read_lv0)

Signed header counts with batch axis reads; the slave-radiometer pair is
gated for the whole file by a nonzero slave ID (the source appends empty
lists when absent, embedded as the missing marker none); the voltage,
gain, noise and infrared matrices are first assigned inside the loop. -/

structure Lv0Header where
  lv0_code : ℤ
  lv0_n : ℤ
  lv0_idmst : ℤ
  lv0_idslv : ℤ
  lv0_timeref : ℤ
  lv0_freqn : ℤ
  lv0_freq : List ℕ
  lv0_irwvln : ℤ
  lv0_irwvl : List ℕ
  lv0_lon : ℕ
  lv0_lat : ℕ
  lv0_alpha : List ℕ
  lv0_delt : List ℕ

def lv0Header : M Lv0Header := do
  let code ← readI32
  let n ← readI32
  let idmst ← readI32
  let idslv ← readI32
  let timeref ← readI32
  let freqn ← readI32
  let freq ← readPack4 freqn
  let irwvln ← readI32
  let irwvl ← readPack4 irwvln
  let lon ← readF32w
  let lat ← readF32w
  let alpha ← readPack4 freqn
  let delt ← readPack4 freqn
  pure ⟨code, n, idmst, idslv, timeref, freqn, freq, irwvln, irwvl, lon,
    lat, alpha, delt⟩

structure Lv0Sample where
  t : ℤ
  ud : List ℕ
  elv : ℕ
  azm : ℕ
  tambmst : ℕ
  dflagmst : ℤ
  slv : Option (ℕ × ℤ)
  gain : List ℕ
  sysn : List ℕ
  nd : List ℕ
  t_env : ℕ
  press : ℕ
  humid : ℕ
  irtmp : List ℕ

def lv0Sample (freqn irwvln idslv : ℤ) : M Lv0Sample := do
  let t ← readI32
  let ud ← readN readF32w freqn.toNat
  let elv ← readF32w
  let azm ← readF32w
  let tambmst ← readF32w
  let dflagmst ← readI32
  let slv ←
    if idslv ≠ 0 then do
      let tambslv ← readF32w
      let dflagslv ← readI32
      pure (some (tambslv, dflagslv))
    else pure none
  let gain ← readN readF32w freqn.toNat
  let sysn ← readN readF32w freqn.toNat
  let nd ← readN readF32w freqn.toNat
  let t_env ← readF32w
  let press ← readF32w
  let humid ← readF32w
  let irtmp ← readN readF32w irwvln.toNat
  pure ⟨t, ud, elv, azm, tambmst, dflagmst, slv, gain, sysn, nd, t_env,
    press, humid, irtmp⟩

structure Lv0Data where
  lv0_code : ℤ
  lv0_n : ℤ
  lv0_idmst : ℤ
  lv0_idslv : ℤ
  lv0_timeref : ℤ
  lv0_freqn : ℤ
  lv0_freq : List ℕ
  lv0_irwvln : ℤ
  lv0_irwvl : List ℕ
  lv0_lon : ℕ
  lv0_lat : ℕ
  lv0_alpha : List ℕ
  lv0_delt : List ℕ
  lv0_t : List ℤ
  lv0_ud : List (List ℕ)
  lv0_elv : List ℕ
  lv0_azm : List ℕ
  lv0_tambmst : List ℕ
  lv0_dflagmst : List ℤ
  lv0_tambslv : List (Option ℕ)
  lv0_dflagslv : List (Option ℤ)
  lv0_gain : List (List ℕ)
  lv0_sysn : List (List ℕ)
  lv0_nd : List (List ℕ)
  lv0_t_env : List ℕ
  lv0_press : List ℕ
  lv0_humid : List ℕ
  lv0_irtmp : List (List ℕ)

def lv0Ret (h : Lv0Header) (smps : List Lv0Sample) : M Lv0Data :=
  if smps.isEmpty then unboundErr
  else pure ⟨h.lv0_code, h.lv0_n, h.lv0_idmst, h.lv0_idslv, h.lv0_timeref,
    h.lv0_freqn, h.lv0_freq, h.lv0_irwvln, h.lv0_irwvl, h.lv0_lon,
    h.lv0_lat, h.lv0_alpha, h.lv0_delt,
    smps.map (·.t), smps.map (·.ud), smps.map (·.elv), smps.map (·.azm),
    smps.map (·.tambmst), smps.map (·.dflagmst),
    smps.map (fun x => x.slv.map (·.1)), smps.map (fun x => x.slv.map (·.2)),
    smps.map (·.gain), smps.map (·.sysn), smps.map (·.nd),
    smps.map (·.t_env), smps.map (·.press), smps.map (·.humid),
    smps.map (·.irtmp)⟩

def read_lv0 : M Lv0Data :=
  genDecode lv0Header (fun h => h.lv0_n.toNat)
    (fun h => lv0Sample h.lv0_freqn h.lv0_irwvln h.lv0_idslv) lv0Ret

/-! ## Claim C10: decoding with a header-declared n = 0 -/

/-- An all-zero 20-byte ATN buffer: n = 0 samples, frequency count 0. -/
def atnBufC10 : List ℕ := List.replicate 20 0

/-- C10 counterexample: ATN is listed by the claim among the formats whose
payload variable is first assigned only inside the sample loop, but the
source pre-initialises atn_dat to the empty list, so an ATN buffer with
n = 0 decodes successfully to a dataset with an empty payload instead of
failing with an unbound-local error. -/
theorem claim10_counterexample :
    read_atn ⟨atnBufC10, 0⟩ =
      .ok (⟨0, 0, 0, 0, 0, [], [], [], [], [], [], []⟩, ⟨[], 20⟩) ∧
    read_atn ⟨atnBufC10, 0⟩ ≠ .error .UnboundLocal := by
  have hok : read_atn ⟨atnBufC10, 0⟩ =
      .ok (⟨0, 0, 0, 0, 0, [], [], [], [], [], [], []⟩, ⟨[], 20⟩) := rfl
  refine ⟨hok, ?_⟩
  rw [hok]
  intro hcontr
  cases hcontr

/-- C10 amended: for TPC, BRT, TPB, HPC, LPR, STA and BLB the payload
variable is first assigned only inside the sample loop, so a buffer whose
header parses with n = 0 fails at the return expression with an
unbound-local error and yields no dataset; ATN, by contrast,
pre-initialises its payload to the empty list and returns a dataset with
an empty payload. -/
theorem claim10_n0_unbound :
    (∀ B, genScenarioN0 tpcHeader (fun h => h.tpc_n) B = true →
      read_tpc ⟨B, 0⟩ = .error .UnboundLocal) ∧
    (∀ B, genScenarioN0 brtHeader (fun h => h.brt_n) B = true →
      read_brt ⟨B, 0⟩ = .error .UnboundLocal) ∧
    (∀ B, genScenarioN0 tpbHeader (fun h => h.tpb_n) B = true →
      read_tpb ⟨B, 0⟩ = .error .UnboundLocal) ∧
    (∀ B, genScenarioN0 hpcHeader (fun h => h.hpc_n) B = true →
      read_hpc ⟨B, 0⟩ = .error .UnboundLocal) ∧
    (∀ B, genScenarioN0 lprHeader (fun h => h.lpr_n) B = true →
      read_lpr ⟨B, 0⟩ = .error .UnboundLocal) ∧
    (∀ B, genScenarioN0 staHeader (fun h => h.sta_n) B = true →
      read_sta ⟨B, 0⟩ = .error .UnboundLocal) ∧
    (∀ B, genScenarioN0 blbHeader (fun h => h.blb_n) B = true →
      read_blb ⟨B, 0⟩ = .error .UnboundLocal) ∧
    (∀ B, genScenarioN0 atnHeader (fun h => h.atn_n.toNat) B = true →
      ∃ d s₂, read_atn ⟨B, 0⟩ = .ok (d, s₂) ∧ d.atn_dat = []) := by
  refine ⟨fun B hs => gen_n0 tpcHeader (fun h => h.tpc_n)
      (fun h => tpcSample h.tpc_altn) tpcRet (fun h s => rfl) hs,
    fun B hs => gen_n0 brtHeader (fun h => h.brt_n)
      (fun h => brtSample h.brt_freqn) brtRet (fun h s => rfl) hs,
    fun B hs => gen_n0 tpbHeader (fun h => h.tpb_n)
      (fun h => tpbSample h.tpb_altn) tpbRet (fun h s => rfl) hs,
    fun B hs => gen_n0 hpcHeader (fun h => h.hpc_n)
      (fun h => hpcSample h.hpc_altn) hpcRet (fun h s => rfl) hs,
    fun B hs => gen_n0 lprHeader (fun h => h.lpr_n)
      (fun h => lprSample h.lpr_altn) lprRet (fun h s => rfl) hs,
    fun B hs => gen_n0 staHeader (fun h => h.sta_n)
      (fun _ => staSample) staRet (fun h s => rfl) hs,
    fun B hs => gen_n0 blbHeader (fun h => h.blb_n)
      (fun h => blbSample h.blb_freqn h.blb_angn) blbRet (fun h s => rfl) hs,
    ?_⟩
  intro B hs
  unfold genScenarioN0 at hs
  cases hh : atnHeader ⟨B, 0⟩ with
  | error e => rw [hh] at hs; cases hs
  | ok v =>
    obtain ⟨h, s₁⟩ := v
    rw [hh] at hs
    have hn : h.atn_n.toNat = 0 := by simpa using hs
    refine ⟨⟨h.atn_code, h.atn_n, h.atn_timeref, h.atn_retrieval, h.atn_freqn,
      h.atn_freq, h.atn_min, h.atn_max, [], [], [], []⟩, s₁, ?_, rfl⟩
    show (atnHeader >>= fun h =>
      readN (atnSample h.atn_freqn) h.atn_n.toNat >>= atnRet h) ⟨B, 0⟩ = _
    rw [bind_eq_ok hh, hn]
    rw [show readN (atnSample h.atn_freqn) 0 = (pure [] : M (List AtnSample)) from rfl]
    rw [bind_eq_ok (pure_run ([] : List AtnSample) s₁)]
    unfold atnRet
    rw [pure_run]
    rfl

/-- C10 witness: the seven unbound-local clauses and the ATN clause
instantiated at minimal all-zero buffers whose headers parse with n = 0. -/
theorem claim10_witness :
    (genScenarioN0 tpcHeader (fun h => h.tpc_n) (List.replicate 28 0) = true ∧
     read_tpc ⟨List.replicate 28 0, 0⟩ = .error .UnboundLocal) ∧
    (genScenarioN0 brtHeader (fun h => h.brt_n) (List.replicate 16 0) = true ∧
     read_brt ⟨List.replicate 16 0, 0⟩ = .error .UnboundLocal) ∧
    (genScenarioN0 tpbHeader (fun h => h.tpb_n) (List.replicate 28 0) = true ∧
     read_tpb ⟨List.replicate 28 0, 0⟩ = .error .UnboundLocal) ∧
    (genScenarioN0 hpcHeader (fun h => h.hpc_n) (List.replicate 28 0) = true ∧
     read_hpc ⟨List.replicate 28 0, 0⟩ = .error .UnboundLocal) ∧
    (genScenarioN0 lprHeader (fun h => h.lpr_n) (List.replicate 28 0) = true ∧
     read_lpr ⟨List.replicate 28 0, 0⟩ = .error .UnboundLocal) ∧
    (genScenarioN0 staHeader (fun h => h.sta_n) (List.replicate 44 0) = true ∧
     read_sta ⟨List.replicate 44 0, 0⟩ = .error .UnboundLocal) ∧
    (genScenarioN0 blbHeader (fun h => h.blb_n) (List.replicate 20 0) = true ∧
     read_blb ⟨List.replicate 20 0, 0⟩ = .error .UnboundLocal) ∧
    (genScenarioN0 atnHeader (fun h => h.atn_n.toNat) (List.replicate 20 0) = true ∧
     ∃ d s₂, read_atn ⟨List.replicate 20 0, 0⟩ = .ok (d, s₂) ∧ d.atn_dat = []) :=
  ⟨⟨rfl, claim10_n0_unbound.1 _ rfl⟩,
   ⟨rfl, claim10_n0_unbound.2.1 _ rfl⟩,
   ⟨rfl, claim10_n0_unbound.2.2.1 _ rfl⟩,
   ⟨rfl, claim10_n0_unbound.2.2.2.1 _ rfl⟩,
   ⟨rfl, claim10_n0_unbound.2.2.2.2.1 _ rfl⟩,
   ⟨rfl, claim10_n0_unbound.2.2.2.2.2.1 _ rfl⟩,
   ⟨rfl, claim10_n0_unbound.2.2.2.2.2.2.1 _ rfl⟩,
   ⟨rfl, claim10_n0_unbound.2.2.2.2.2.2.2 _ rfl⟩⟩

/-! ## Claim C3: truncated input fails for every supported format

The scenario, per format: the header parses and declares n = 100, exactly
50 complete sample records follow, and nothing else.  For the
calibration-history format a complete record is additionally one that does
not trigger the oversized-count early exit. -/

def lwpScenario : List ℕ → Option ℕ :=
  genScenario lwpHeader (fun h => h.lwp_n) (fun _ => scalarSample)

def iwvScenario : List ℕ → Option ℕ :=
  genScenario iwvHeader (fun h => h.iwv_n) (fun _ => scalarSample)

def atnScenario : List ℕ → Option ℕ :=
  genScenario atnHeader (fun h => h.atn_n.toNat) (fun h => atnSample h.atn_freqn)

def brtScenario : List ℕ → Option ℕ :=
  genScenario brtHeader (fun h => h.brt_n) (fun h => brtSample h.brt_freqn)

def metScenario : List ℕ → Option ℕ :=
  genScenario metHeader (fun h => h.met_n) (fun _ => metSample)

def tpcScenario : List ℕ → Option ℕ :=
  genScenario tpcHeader (fun h => h.tpc_n) (fun h => tpcSample h.tpc_altn)

def tpbScenario : List ℕ → Option ℕ :=
  genScenario tpbHeader (fun h => h.tpb_n) (fun h => tpbSample h.tpb_altn)

def hpcScenario : List ℕ → Option ℕ :=
  genScenario hpcHeader (fun h => h.hpc_n) (fun h => hpcSample h.hpc_altn)

def lprScenario : List ℕ → Option ℕ :=
  genScenario lprHeader (fun h => h.lpr_n) (fun h => lprSample h.lpr_altn)

def irtScenario : List ℕ → Option ℕ :=
  genScenario irtHeader (fun h => h.irt_n) (fun _ => irtSample)

def blbScenario : List ℕ → Option ℕ :=
  genScenario blbHeader (fun h => h.blb_n) (fun h => blbSample h.blb_freqn h.blb_angn)

def staScenario : List ℕ → Option ℕ :=
  genScenario staHeader (fun h => h.sta_n) (fun _ => staSample)

def cbhScenario : List ℕ → Option ℕ :=
  genScenario cbhHeader (fun h => h.cbh_n) (fun _ => cbhSample)

def blhScenario : List ℕ → Option ℕ :=
  genScenario blhHeader (fun h => h.blh_n.toNat) (fun _ => blhSample)

def hkdScenario : List ℕ → Option ℕ :=
  genScenario hkdHeader (fun h => h.hkd_n) (fun h => hkdSample h.hkd_select)

def lv0Scenario : List ℕ → Option ℕ :=
  genScenario lv0Header (fun h => h.lv0_n.toNat)
    (fun h => lv0Sample h.lv0_freqn h.lv0_irwvln h.lv0_idslv)

/-- Runs k complete calibration entries strictly: returns false when an
entry triggers the oversized-count early exit. -/
def calIterStrict : ℕ → M Bool
  | 0 => pure true
  | k + 1 => do
    let e1 ← calEnt1
    if e1.r1freqn > 10 then pure false
    else do
      let _ ← calEnt2 e1.r1freqn
      calIterStrict k

def abscalScenario (B : List ℕ) : Option ℕ :=
  match abscalHeader ⟨B, 0⟩ with
  | .ok (h, s₁) =>
    if h.2.toNat = 100 then
      match calIterStrict 50 s₁ with
      | .ok (true, s₂) => if s₂.data = [] then some s₂.pos else none
      | _ => none
    else none
  | .error _ => none

theorem calIterStrict_shift : ∀ (k : ℕ) {s s₂ : St},
    calIterStrict k s = .ok (true, s₂) →
    ∀ (m : ℕ) (a1 : List CalEnt1) (a2 : List CalEnt2),
    ∃ b1 b2, abscalLoop (k + m) a1 a2 s = abscalLoop m b1 b2 s₂ := by
  intro k
  induction k with
  | zero =>
    intro s s₂ h m a1 a2
    rw [show calIterStrict 0 s = .ok (true, s) from rfl] at h
    obtain ⟨-, hs⟩ := Prod.mk.injEq .. ▸ Except.ok.inj h
    subst hs
    exact ⟨a1, a2, by rw [Nat.zero_add]⟩
  | succ k ih =>
    intro s s₂ h m a1 a2
    obtain ⟨e1, t, h1, h2⟩ := bind_ok_elim h
    by_cases hgt : e1.r1freqn > 10
    · rw [if_pos hgt] at h2
      rw [pure_run] at h2
      obtain ⟨hb, -⟩ := Prod.mk.injEq .. ▸ Except.ok.inj h2
      cases hb
    · rw [if_neg hgt] at h2
      obtain ⟨e2, t₂, h3, h4⟩ := bind_ok_elim h2
      obtain ⟨b1, b2, hb⟩ := ih h4 m (a1 ++ [e1]) (a2 ++ [e2])
      refine ⟨b1, b2, ?_⟩
      rw [show k + 1 + m = (k + m) + 1 from by omega]
      show (calEnt1 >>= fun e1 =>
        if e1.r1freqn > 10 then pure (a1 ++ [e1], a2)
        else calEnt2 e1.r1freqn >>= fun e2 =>
          abscalLoop (k + m) (a1 ++ [e1]) (a2 ++ [e2])) s = _
      rw [bind_eq_ok h1, if_neg hgt, bind_eq_ok h3]
      exact hb

/-- C3: for every one of the seventeen supported formats, a buffer whose
header declares n = 100 sample records but which contains bytes for only
50 of them fails with TruncatedInput at the offset where the 51st record
read starts (the end of the data), and no dataset is returned; the decode
being a pure function, the failing offset is deterministic and
reproducible. -/
theorem claim3_truncation :
    (∀ B p, lwpScenario B = some p → read_lwp ⟨B, 0⟩ = .error (.TruncatedInput p)) ∧
    (∀ B p, iwvScenario B = some p → read_iwv ⟨B, 0⟩ = .error (.TruncatedInput p)) ∧
    (∀ B p, atnScenario B = some p → read_atn ⟨B, 0⟩ = .error (.TruncatedInput p)) ∧
    (∀ B p, brtScenario B = some p → read_brt ⟨B, 0⟩ = .error (.TruncatedInput p)) ∧
    (∀ B p, metScenario B = some p → read_met ⟨B, 0⟩ = .error (.TruncatedInput p)) ∧
    (∀ B p, tpcScenario B = some p → read_tpc ⟨B, 0⟩ = .error (.TruncatedInput p)) ∧
    (∀ B p, tpbScenario B = some p → read_tpb ⟨B, 0⟩ = .error (.TruncatedInput p)) ∧
    (∀ B p, hpcScenario B = some p → read_hpc ⟨B, 0⟩ = .error (.TruncatedInput p)) ∧
    (∀ B p, lprScenario B = some p → read_lpr ⟨B, 0⟩ = .error (.TruncatedInput p)) ∧
    (∀ B p, irtScenario B = some p → read_irt ⟨B, 0⟩ = .error (.TruncatedInput p)) ∧
    (∀ B p, blbScenario B = some p → read_blb ⟨B, 0⟩ = .error (.TruncatedInput p)) ∧
    (∀ B p, staScenario B = some p → read_sta ⟨B, 0⟩ = .error (.TruncatedInput p)) ∧
    (∀ B p, cbhScenario B = some p → read_cbh ⟨B, 0⟩ = .error (.TruncatedInput p)) ∧
    (∀ B p, blhScenario B = some p → read_blh ⟨B, 0⟩ = .error (.TruncatedInput p)) ∧
    (∀ B p, hkdScenario B = some p → read_hkd ⟨B, 0⟩ = .error (.TruncatedInput p)) ∧
    (∀ B p, lv0Scenario B = some p → read_lv0 ⟨B, 0⟩ = .error (.TruncatedInput p)) ∧
    (∀ B p, abscalScenario B = some p →
      read_abscal_his ⟨B, 0⟩ = .error (.TruncatedInput p)) := by
  refine ⟨fun B p hs => gen_trunc lwpHeader (fun h => h.lwp_n)
      (fun _ => scalarSample) lwpRet (fun h q => rfl) hs,
    fun B p hs => gen_trunc iwvHeader (fun h => h.iwv_n)
      (fun _ => scalarSample) iwvRet (fun h q => rfl) hs,
    fun B p hs => gen_trunc atnHeader (fun h => h.atn_n.toNat)
      (fun h => atnSample h.atn_freqn) atnRet (fun h q => rfl) hs,
    fun B p hs => gen_trunc brtHeader (fun h => h.brt_n)
      (fun h => brtSample h.brt_freqn) brtRet (fun h q => rfl) hs,
    fun B p hs => gen_trunc metHeader (fun h => h.met_n)
      (fun _ => metSample) metRet (fun h q => rfl) hs,
    fun B p hs => gen_trunc tpcHeader (fun h => h.tpc_n)
      (fun h => tpcSample h.tpc_altn) tpcRet (fun h q => rfl) hs,
    fun B p hs => gen_trunc tpbHeader (fun h => h.tpb_n)
      (fun h => tpbSample h.tpb_altn) tpbRet (fun h q => rfl) hs,
    fun B p hs => gen_trunc hpcHeader (fun h => h.hpc_n)
      (fun h => hpcSample h.hpc_altn) hpcRet (fun h q => rfl) hs,
    fun B p hs => gen_trunc lprHeader (fun h => h.lpr_n)
      (fun h => lprSample h.lpr_altn) lprRet (fun h q => rfl) hs,
    fun B p hs => gen_trunc irtHeader (fun h => h.irt_n)
      (fun _ => irtSample) irtRet (fun h q => rfl) hs,
    fun B p hs => gen_trunc blbHeader (fun h => h.blb_n)
      (fun h => blbSample h.blb_freqn h.blb_angn) blbRet (fun h q => rfl) hs,
    fun B p hs => gen_trunc staHeader (fun h => h.sta_n)
      (fun _ => staSample) staRet (fun h q => rfl) hs,
    fun B p hs => gen_trunc cbhHeader (fun h => h.cbh_n)
      (fun _ => cbhSample) cbhRet (fun h q => rfl) hs,
    fun B p hs => gen_trunc blhHeader (fun h => h.blh_n.toNat)
      (fun _ => blhSample) blhRet (fun h q => rfl) hs,
    fun B p hs => gen_trunc hkdHeader (fun h => h.hkd_n)
      (fun h => hkdSample h.hkd_select) hkdRet (fun h q => rfl) hs,
    fun B p hs => gen_trunc lv0Header (fun h => h.lv0_n.toNat)
      (fun h => lv0Sample h.lv0_freqn h.lv0_irwvln h.lv0_idslv) lv0Ret
      (fun h q => rfl) hs,
    ?_⟩
  intro B p hs
  unfold abscalScenario at hs
  cases hh : abscalHeader ⟨B, 0⟩ with
  | error e => rw [hh] at hs; cases hs
  | ok v =>
    obtain ⟨h, s₁⟩ := v
    rw [hh] at hs
    replace hs : (if h.2.toNat = 100 then
        (match calIterStrict 50 s₁ with
          | .ok (true, s₂) => if s₂.data = [] then some s₂.pos else none
          | _ => none)
      else none) = some p := hs
    by_cases hn : h.2.toNat = 100
    case neg => rw [if_neg hn] at hs; cases hs
    case pos =>
      rw [if_pos hn] at hs
      cases hr : calIterStrict 50 s₁ with
      | error e => rw [hr] at hs; cases hs
      | ok w =>
        obtain ⟨bl, s₂⟩ := w
        rw [hr] at hs
        cases bl with
        | false => replace hs : (none : Option ℕ) = some p := hs; cases hs
        | true =>
          replace hs : (if s₂.data = [] then some s₂.pos else none) = some p := hs
          by_cases hd : s₂.data = []
          case neg => rw [if_neg hd] at hs; cases hs
          case pos =>
            rw [if_pos hd] at hs
            have hp2 : s₂.pos = p := Option.some.inj hs
            obtain ⟨b1, b2, hb⟩ := calIterStrict_shift 50 hr 50 [] []
            have hs2 : s₂ = ⟨[], p⟩ := by
              obtain ⟨d, q⟩ := s₂
              cases hd
              cases hp2
              rfl
            have hfail : abscalLoop 50 b1 b2 ⟨[], p⟩ = .error (.TruncatedInput p) := by
              show (calEnt1 >>= fun e1 =>
                if e1.r1freqn > 10 then pure (b1 ++ [e1], b2)
                else calEnt2 e1.r1freqn >>= fun e2 =>
                  abscalLoop 49 (b1 ++ [e1]) (b2 ++ [e2])) ⟨[], p⟩ = _
              exact bind_eq_error rfl _
            show (abscalHeader >>= fun h => abscalLoop h.2.toNat [] [] >>= fun acc =>
              (pure ⟨h.1, h.2,
                acc.1.map (·.entlen), acc.1.map (·.inst), acc.1.map (·.r1caltype),
                acc.1.map (·.r2caltype), acc.1.map (·.r1time), acc.1.map (·.r2time),
                acc.1.map (·.r1tamb), acc.1.map (·.r2tamb), acc.1.map (·.r1pres),
                acc.1.map (·.r2pres), acc.1.map (·.r1hot), acc.1.map (·.r2hot),
                acc.1.map (·.r1cold), acc.1.map (·.r2cold), acc.1.map (·.r1freqn),
                acc.2.map (·.r1freq), acc.2.map (·.r2freqn), acc.2.map (·.r2freq),
                acc.2.map (·.flag), acc.2.map (·.gain), acc.2.map (·.noise),
                acc.2.map (·.sysn), acc.2.map (·.alpha)⟩ : M AbscalData)) ⟨B, 0⟩
              = .error (.TruncatedInput p)
            rw [bind_eq_ok hh, hn, show (100 : ℕ) = 50 + 50 from rfl, bind_run, hb,
              hs2, hfail]

/-! ### Concrete witnesses for the truncation scenario: all-zero buffers
with n = 100, minimal axis counts, and exactly 50 sample records. -/

def lwpBufC3 : List ℕ := [0, 0, 0, 0, 100, 0, 0, 0] ++ List.replicate 666 0

def iwvBufC3 : List ℕ := [0, 0, 0, 0, 100, 0, 0, 0] ++ List.replicate 666 0

def atnBufC3 : List ℕ := [0, 0, 0, 0, 100, 0, 0, 0] ++ List.replicate 462 0

def brtBufC3 : List ℕ :=
  [0, 0, 0, 0, 100, 0, 0, 0, 0, 0, 0, 0, 1, 0, 0, 0] ++ List.replicate 662 0

def metBufC3 : List ℕ := [0, 0, 0, 0, 100, 0, 0, 0] ++ List.replicate 879 0

def tpcBufC3 : List ℕ :=
  [0, 0, 0, 0, 100, 0, 0, 0, 0, 0, 0, 0, 0, 0, 0, 0, 0, 0, 0, 0, 0, 0, 0, 0,
   1, 0, 0, 0] ++ List.replicate 454 0

def tpbBufC3 : List ℕ :=
  [0, 0, 0, 0, 100, 0, 0, 0, 0, 0, 0, 0, 0, 0, 0, 0, 0, 0, 0, 0, 0, 0, 0, 0,
   1, 0, 0, 0] ++ List.replicate 454 0

def hpcBufC3 : List ℕ :=
  [0, 0, 0, 0, 100, 0, 0, 0, 0, 0, 0, 0, 0, 0, 0, 0, 0, 0, 0, 0, 0, 0, 0, 0,
   1, 0, 0, 0] ++ List.replicate 454 0

def lprBufC3 : List ℕ := [0, 0, 0, 0, 100, 0, 0, 0] ++ List.replicate 270 0

def irtBufC3 : List ℕ := [0, 0, 0, 0, 100, 0, 0, 0] ++ List.replicate 666 0

def blbBufC3 : List ℕ := [0, 0, 0, 0, 100, 0, 0, 0] ++ List.replicate 262 0

def staBufC3 : List ℕ := [0, 0, 0, 0, 100, 0, 0, 0] ++ List.replicate 1486 0

def cbhBufC3 : List ℕ := [0, 0, 0, 0, 100, 0, 0, 0] ++ List.replicate 462 0

def blhBufC3 : List ℕ := [0, 0, 0, 0, 100, 0, 0, 0] ++ List.replicate 462 0

def hkdBufC3 : List ℕ := [0, 0, 0, 0, 100, 0, 0, 0] ++ List.replicate 258 0

def lv0BufC3 : List ℕ := [0, 0, 0, 0, 100, 0, 0, 0] ++ List.replicate 1628 0

def abscalBufC3 : List ℕ := [0, 0, 0, 0, 100, 0, 0, 0] ++ List.replicate 4200 0

set_option maxRecDepth 40000 in
/-- Evaluates the truncation scenario on the concrete LWP buffer. -/
theorem lwpScenC3_eval : lwpScenario lwpBufC3 = some 674 := by decide

set_option maxRecDepth 40000 in
/-- Evaluates the truncation scenario on the concrete IWV buffer. -/
theorem iwvScenC3_eval : iwvScenario iwvBufC3 = some 674 := by decide

set_option maxRecDepth 40000 in
/-- Evaluates the truncation scenario on the concrete ATN buffer. -/
theorem atnScenC3_eval : atnScenario atnBufC3 = some 470 := by decide

set_option maxRecDepth 40000 in
/-- Evaluates the truncation scenario on the concrete BRT buffer. -/
theorem brtScenC3_eval : brtScenario brtBufC3 = some 678 := by decide

set_option maxRecDepth 40000 in
/-- Evaluates the truncation scenario on the concrete MET buffer. -/
theorem metScenC3_eval : metScenario metBufC3 = some 887 := by decide

set_option maxRecDepth 40000 in
/-- Evaluates the truncation scenario on the concrete TPC buffer. -/
theorem tpcScenC3_eval : tpcScenario tpcBufC3 = some 482 := by decide

set_option maxRecDepth 40000 in
/-- Evaluates the truncation scenario on the concrete TPB buffer. -/
theorem tpbScenC3_eval : tpbScenario tpbBufC3 = some 482 := by decide

set_option maxRecDepth 40000 in
/-- Evaluates the truncation scenario on the concrete HPC buffer. -/
theorem hpcScenC3_eval : hpcScenario hpcBufC3 = some 482 := by decide

set_option maxRecDepth 40000 in
/-- Evaluates the truncation scenario on the concrete LPR buffer. -/
theorem lprScenC3_eval : lprScenario lprBufC3 = some 278 := by decide

set_option maxRecDepth 40000 in
/-- Evaluates the truncation scenario on the concrete IRT buffer. -/
theorem irtScenC3_eval : irtScenario irtBufC3 = some 674 := by decide

set_option maxRecDepth 40000 in
/-- Evaluates the truncation scenario on the concrete BLB buffer. -/
theorem blbScenC3_eval : blbScenario blbBufC3 = some 270 := by decide

set_option maxRecDepth 40000 in
/-- Evaluates the truncation scenario on the concrete STA buffer. -/
theorem staScenC3_eval : staScenario staBufC3 = some 1494 := by decide

set_option maxRecDepth 40000 in
/-- Evaluates the truncation scenario on the concrete CBH buffer. -/
theorem cbhScenC3_eval : cbhScenario cbhBufC3 = some 470 := by decide

set_option maxRecDepth 40000 in
/-- Evaluates the truncation scenario on the concrete BLH buffer. -/
theorem blhScenC3_eval : blhScenario blhBufC3 = some 470 := by decide

set_option maxRecDepth 40000 in
/-- Evaluates the truncation scenario on the concrete HKD buffer. -/
theorem hkdScenC3_eval : hkdScenario hkdBufC3 = some 266 := by decide

set_option maxRecDepth 40000 in
/-- Evaluates the truncation scenario on the concrete LV0 buffer. -/
theorem lv0ScenC3_eval : lv0Scenario lv0BufC3 = some 1636 := by decide

set_option maxRecDepth 40000 in
/-- Evaluates the truncation scenario on the concrete ABSCAL buffer. -/
theorem abscalScenC3_eval : abscalScenario abscalBufC3 = some 4208 := by decide

/-- C3 witness: each format's truncation clause instantiated at a concrete
buffer declaring n = 100 with exactly 50 records of data. -/
theorem claim3_witness :
    (lwpScenario lwpBufC3 = some 674 ∧
     read_lwp ⟨lwpBufC3, 0⟩ = .error (.TruncatedInput 674)) ∧
    (iwvScenario iwvBufC3 = some 674 ∧
     read_iwv ⟨iwvBufC3, 0⟩ = .error (.TruncatedInput 674)) ∧
    (atnScenario atnBufC3 = some 470 ∧
     read_atn ⟨atnBufC3, 0⟩ = .error (.TruncatedInput 470)) ∧
    (brtScenario brtBufC3 = some 678 ∧
     read_brt ⟨brtBufC3, 0⟩ = .error (.TruncatedInput 678)) ∧
    (metScenario metBufC3 = some 887 ∧
     read_met ⟨metBufC3, 0⟩ = .error (.TruncatedInput 887)) ∧
    (tpcScenario tpcBufC3 = some 482 ∧
     read_tpc ⟨tpcBufC3, 0⟩ = .error (.TruncatedInput 482)) ∧
    (tpbScenario tpbBufC3 = some 482 ∧
     read_tpb ⟨tpbBufC3, 0⟩ = .error (.TruncatedInput 482)) ∧
    (hpcScenario hpcBufC3 = some 482 ∧
     read_hpc ⟨hpcBufC3, 0⟩ = .error (.TruncatedInput 482)) ∧
    (lprScenario lprBufC3 = some 278 ∧
     read_lpr ⟨lprBufC3, 0⟩ = .error (.TruncatedInput 278)) ∧
    (irtScenario irtBufC3 = some 674 ∧
     read_irt ⟨irtBufC3, 0⟩ = .error (.TruncatedInput 674)) ∧
    (blbScenario blbBufC3 = some 270 ∧
     read_blb ⟨blbBufC3, 0⟩ = .error (.TruncatedInput 270)) ∧
    (staScenario staBufC3 = some 1494 ∧
     read_sta ⟨staBufC3, 0⟩ = .error (.TruncatedInput 1494)) ∧
    (cbhScenario cbhBufC3 = some 470 ∧
     read_cbh ⟨cbhBufC3, 0⟩ = .error (.TruncatedInput 470)) ∧
    (blhScenario blhBufC3 = some 470 ∧
     read_blh ⟨blhBufC3, 0⟩ = .error (.TruncatedInput 470)) ∧
    (hkdScenario hkdBufC3 = some 266 ∧
     read_hkd ⟨hkdBufC3, 0⟩ = .error (.TruncatedInput 266)) ∧
    (lv0Scenario lv0BufC3 = some 1636 ∧
     read_lv0 ⟨lv0BufC3, 0⟩ = .error (.TruncatedInput 1636)) ∧
    (abscalScenario abscalBufC3 = some 4208 ∧
     read_abscal_his ⟨abscalBufC3, 0⟩ = .error (.TruncatedInput 4208)) :=
  ⟨⟨lwpScenC3_eval, claim3_truncation.1 lwpBufC3 674 lwpScenC3_eval⟩,
   ⟨iwvScenC3_eval, claim3_truncation.2.1 iwvBufC3 674 iwvScenC3_eval⟩,
   ⟨atnScenC3_eval, claim3_truncation.2.2.1 atnBufC3 470 atnScenC3_eval⟩,
   ⟨brtScenC3_eval, claim3_truncation.2.2.2.1 brtBufC3 678 brtScenC3_eval⟩,
   ⟨metScenC3_eval, claim3_truncation.2.2.2.2.1 metBufC3 887 metScenC3_eval⟩,
   ⟨tpcScenC3_eval, claim3_truncation.2.2.2.2.2.1 tpcBufC3 482 tpcScenC3_eval⟩,
   ⟨tpbScenC3_eval, claim3_truncation.2.2.2.2.2.2.1 tpbBufC3 482 tpbScenC3_eval⟩,
   ⟨hpcScenC3_eval, claim3_truncation.2.2.2.2.2.2.2.1 hpcBufC3 482 hpcScenC3_eval⟩,
   ⟨lprScenC3_eval, claim3_truncation.2.2.2.2.2.2.2.2.1 lprBufC3 278 lprScenC3_eval⟩,
   ⟨irtScenC3_eval, claim3_truncation.2.2.2.2.2.2.2.2.2.1 irtBufC3 674 irtScenC3_eval⟩,
   ⟨blbScenC3_eval, claim3_truncation.2.2.2.2.2.2.2.2.2.2.1 blbBufC3 270 blbScenC3_eval⟩,
   ⟨staScenC3_eval, claim3_truncation.2.2.2.2.2.2.2.2.2.2.2.1 staBufC3 1494 staScenC3_eval⟩,
   ⟨cbhScenC3_eval, claim3_truncation.2.2.2.2.2.2.2.2.2.2.2.2.1 cbhBufC3 470 cbhScenC3_eval⟩,
   ⟨blhScenC3_eval, claim3_truncation.2.2.2.2.2.2.2.2.2.2.2.2.2.1 blhBufC3 470 blhScenC3_eval⟩,
   ⟨hkdScenC3_eval, claim3_truncation.2.2.2.2.2.2.2.2.2.2.2.2.2.2.1 hkdBufC3 266 hkdScenC3_eval⟩,
   ⟨lv0ScenC3_eval, claim3_truncation.2.2.2.2.2.2.2.2.2.2.2.2.2.2.2.1 lv0BufC3 1636 lv0ScenC3_eval⟩,
   ⟨abscalScenC3_eval, claim3_truncation.2.2.2.2.2.2.2.2.2.2.2.2.2.2.2.2 abscalBufC3 4208 abscalScenC3_eval⟩⟩

end RPG
